import Mathlib

/-!
# Verification of the TelegBotCardNum banking-notebook bot

Shallow embedding of the two source files of the repository:

* `src/main.py` — the conversation-driven CRUD bot (namespace `MainPy`):
  PostgreSQL schema `persons(id, name UNIQUE)` /
  `accounts(id, person_id REFERENCES persons(id) ON DELETE CASCADE,
  bank_name, account_number, card_number, shaba_number, card_photo_id)` /
  `users(telegram_id PK, first_name)`, plus the `ConversationHandler`
  state machine of `main()`.
* `src/bot.py` — the access-gate variant (namespace `BotPy`):
  `users(id, telegram_id UNIQUE, full_name, is_admin, access_granted)`.

Database tables are modelled as Lean lists of rows; each SQL statement the
handlers execute is embedded as an explicit pure function on those lists.
The Telegram transport is abstracted away: an inbound update is a text or
photo input, and an outbound reply is a constructor of `MainPy.Msg`
naming the literal reply string of the source line it stands for.

The string constants of `src/main.py` are reproduced code point for code
point (the file stores its Persian labels in a double-encoded form; the
escapes below are exactly the code points found in the source).
-/

namespace MainPy

/-! ## Keyboard constants (src/main.py lines 46-57) -/

def HOME_BUTTON : String := "ØµÙØ­Ù‡ Ø§ØµÙ„ÛŒ ğŸ "

def BACK_BUTTON : String := "Ø¨Ø§Ø²Ú¯Ø´Øª ğŸ”™"

def SKIP_BUTTON : String := "Ø±Ø¯ Ø´Ø¯Ù† â­ï¸"

/-- Key of `FIELD_TO_COLUMN_MAP` mapping to column `bank_name`. -/
def FIELD_BANK_NAME : String := "Ù†Ø§Ù… Ø¨Ø§Ù†Ú© ğŸ¦"

/-- Key of `FIELD_TO_COLUMN_MAP` mapping to column `account_number`. -/
def FIELD_ACCOUNT_NUMBER : String := "Ø´Ù…Ø§Ø±Ù‡ Ø­Ø³Ø§Ø¨ ğŸ”¢"

/-- Key of `FIELD_TO_COLUMN_MAP` mapping to column `card_number`. -/
def FIELD_CARD_NUMBER : String := "Ø´Ù…Ø§Ø±Ù‡ Ú©Ø§Ø±Øª ğŸ’³"

/-- Key of `FIELD_TO_COLUMN_MAP` mapping to column `shaba_number`. -/
def FIELD_SHABA_NUMBER : String := "Ø´Ù…Ø§Ø±Ù‡ Ø´Ø¨Ø§ ğŸŒ"

/-- Key of `FIELD_TO_COLUMN_MAP` mapping to column `card_photo_id`. -/
def FIELD_CARD_PHOTO : String := "Ø¹Ú©Ø³ Ú©Ø§Ø±Øª ğŸ–¼ï¸"

/-- `FIELD_TO_COLUMN_MAP` (src/main.py lines 51-57), as an association list
in source order: user-facing field label to database column name. -/
def FIELD_TO_COLUMN_MAP : List (String × String) :=
  [(FIELD_BANK_NAME, "bank_name"),
   (FIELD_ACCOUNT_NUMBER, "account_number"),
   (FIELD_CARD_NUMBER, "card_number"),
   (FIELD_SHABA_NUMBER, "shaba_number"),
   (FIELD_CARD_PHOTO, "card_photo_id")]

/-- Python `dict.get` on an association list. -/
def dictGet (m : List (String × String)) (k : String) : Option String :=
  (m.find? (fun kv => kv.1 == k)).map (·.2)

/-! ## Relational schema of `setup_database` (src/main.py lines 76-113)

`persons(id SERIAL PRIMARY KEY, name TEXT NOT NULL UNIQUE)` and
`accounts(id SERIAL PRIMARY KEY, person_id REFERENCES persons(id)
ON DELETE CASCADE, five nullable TEXT columns)`.  A table is a list of
rows; `SERIAL` ids are `Nat`, nullable `TEXT` columns are `Option String`.
-/

structure UserRow where
  telegram_id : Int
  first_name : String
deriving DecidableEq, Repr

structure Person where
  id : Nat
  name : String
deriving DecidableEq, Repr

structure Account where
  id : Nat
  person_id : Nat
  bank_name : Option String
  account_number : Option String
  card_number : Option String
  shaba_number : Option String
  card_photo_id : Option String
deriving DecidableEq, Repr

structure DB where
  users : List UserRow := []
  persons : List Person
  accounts : List Account
deriving DecidableEq, Repr

/-- `SELECT * FROM persons WHERE id = %s` (first row). -/
def findPerson (db : DB) (pid : Nat) : Option Person :=
  db.persons.find? (fun p => p.id == pid)

/-- `SELECT * FROM accounts WHERE id = %s` (first row), the lookup of
`view_display_account_details` (src/main.py line 334). -/
def findAccount (db : DB) (aid : Nat) : Option Account :=
  db.accounts.find? (fun a => a.id == aid)

/-- `DELETE FROM persons WHERE id = %s` (src/main.py line 500) together
with the schema-level `ON DELETE CASCADE` of `accounts.person_id`
(src/main.py line 97): the person row goes, and so does every account row
whose `person_id` references it. -/
def deletePersonCascade (db : DB) (pid : Nat) : DB :=
  { persons := db.persons.filter (fun p => p.id != pid),
    accounts := db.accounts.filter (fun a => a.person_id != pid) }

/-- Outcome of the account lookup inside `view_display_account_details`
(src/main.py lines 334-338): a missing row renders the explicit
"account not found" reply and falls back to re-showing the account list;
it is a handled outcome, not a raised error. -/
inductive ViewOutcome
  | notFound
  | details (a : Account)
deriving DecidableEq, Repr

/-- The query step of `view_display_account_details` on a resolved
account id (src/main.py lines 334-338). -/
def view_display_account_lookup (db : DB) (account_id : Nat) : ViewOutcome :=
  match findAccount db account_id with
  | none => ViewOutcome.notFound
  | some a => ViewOutcome.details a

end MainPy

namespace MainPy

/-! ## C1: cascade delete of a person -/

theorem mem_filter_bne {α : Type} [DecidableEq α] (f : α → Nat) (l : List α)
    (x : α) (n : Nat) (hx : x ∈ l.filter (fun a => f a != n)) :
    x ∈ l ∧ f x ≠ n := by
  rcases List.mem_filter.mp hx with ⟨h1, h2⟩
  exact ⟨h1, by simpa using h2⟩

/-- C1: executing the confirmed Delete-Person operation on person `pid`
removes (in this single-table variant) every account row whose
`person_id` is `pid`, the person row itself, and a subsequent query for
the person id or any of those account ids yields a "not found" outcome
(`none` from the row lookup, `ViewOutcome.notFound` from the view
handler) rather than an error. -/
theorem C1_delete_person_cascades (db : DB) (pid : Nat)
    (hids : (db.accounts.map Account.id).Nodup) :
    (∀ p' ∈ (deletePersonCascade db pid).persons, p'.id ≠ pid) ∧
    findPerson (deletePersonCascade db pid) pid = none ∧
    (∀ a ∈ db.accounts, a.person_id = pid →
      a ∉ (deletePersonCascade db pid).accounts ∧
      findAccount (deletePersonCascade db pid) a.id = none ∧
      view_display_account_lookup (deletePersonCascade db pid) a.id =
        ViewOutcome.notFound) := by
  refine ⟨?_, ?_, ?_⟩
  · intro p' hp'
    exact (mem_filter_bne Person.id db.persons p' pid hp').2
  · apply List.find?_eq_none.mpr
    intro p' hp'
    have := (mem_filter_bne Person.id db.persons p' pid hp').2
    simpa using this
  · intro a ha hapid
    have hnotmem : a ∉ (deletePersonCascade db pid).accounts := by
      intro hmem
      exact (mem_filter_bne Account.person_id db.accounts a pid hmem).2 hapid
    have hfind : findAccount (deletePersonCascade db pid) a.id = none := by
      apply List.find?_eq_none.mpr
      intro b hb
      have hbmem : b ∈ db.accounts :=
        (mem_filter_bne Account.person_id db.accounts b pid hb).1
      intro hbeq
      have hideq : b.id = a.id := by simpa using hbeq
      have hba : b = a := by
        have hinj := List.inj_on_of_nodup_map (f := Account.id) hids
        exact hinj hbmem ha hideq
      exact hnotmem (hba ▸ hb)
    refine ⟨hnotmem, hfind, ?_⟩
    unfold view_display_account_lookup
    rw [hfind]

/-- Concrete database for the C1 witness: two persons, three accounts. -/
def dbC1 : DB :=
  { persons := [⟨1, "Alice"⟩, ⟨2, "Bob"⟩],
    accounts :=
      [⟨1, 1, some "BankA", some "111", some "222", some "333", none⟩,
       ⟨2, 1, some "BankB", none, some "444", none, none⟩,
       ⟨3, 2, some "BankC", none, none, none, none⟩] }

theorem C1_delete_person_cascades_witness :
    (dbC1.accounts.map Account.id).Nodup ∧
    ((∀ p' ∈ (deletePersonCascade dbC1 1).persons, p'.id ≠ 1) ∧
     findPerson (deletePersonCascade dbC1 1) 1 = none ∧
     (∀ a ∈ dbC1.accounts, a.person_id = 1 →
       a ∉ (deletePersonCascade dbC1 1).accounts ∧
       findAccount (deletePersonCascade dbC1 1) a.id = none ∧
       view_display_account_lookup (deletePersonCascade dbC1 1) a.id =
         ViewOutcome.notFound)) :=
  ⟨by decide, C1_delete_person_cascades dbC1 1 (by decide)⟩

end MainPy

namespace MainPy

/-! ## Conversation states, inputs and outbound replies

The state enumeration of src/main.py lines 32-43 (plus
`ConversationHandler.END`, the value `start` returns for an
unauthorized user).
-/

inductive ConvState
  | MAIN_MENU
  | ADMIN_MENU | ADMIN_ADD_USER | ADMIN_REMOVE_USER
  | VIEW_CHOOSE_PERSON | VIEW_CHOOSE_ACCOUNT
  | EDIT_MENU
  | ADD_CHOOSE_PERSON_TYPE | ADD_NEW_PERSON_NAME | ADD_CHOOSE_EXISTING_PERSON
  | ADD_ACCOUNT_BANK | ADD_ACCOUNT_NUMBER | ADD_ACCOUNT_CARD
  | ADD_ACCOUNT_SHABA | ADD_ACCOUNT_PHOTO
  | DELETE_CHOOSE_TYPE | DELETE_CHOOSE_PERSON | DELETE_CONFIRM_PERSON
  | DELETE_CHOOSE_ACCOUNT_FOR_PERSON | DELETE_CHOOSE_ACCOUNT | DELETE_CONFIRM_ACCOUNT
  | CHANGE_CHOOSE_PERSON | CHANGE_CHOOSE_TARGET
  | CHANGE_PROMPT_PERSON_NAME | CHANGE_SAVE_PERSON_NAME
  | CHANGE_CHOOSE_ACCOUNT | CHANGE_CHOOSE_FIELD
  | CHANGE_PROMPT_FIELD_VALUE | CHANGE_SAVE_FIELD_VALUE
  | END
deriving DecidableEq, Repr

/-- An inbound non-command Telegram update: `update.message.text` is set
for a text message and `None` for a photo message; `update.message.photo`
carries the file id of the largest size for a photo message. -/
inductive TgInput
  | text (s : String)
  | photo (fileId : String)
deriving DecidableEq, Repr

/-- `update.message.text` of the update. -/
def TgInput.asText : TgInput → Option String
  | .text s => some s
  | .photo _ => none

/-- Outbound replies.  Each constructor stands for the literal
`reply_text` string sent at the named line of src/main.py; the logic of
the program never branches on reply contents, so the constructor name
(rather than the double-encoded Persian text) identifies the reply. -/
inductive Msg
  | notAuthorized          -- line 171
  | welcome                -- line 188
  | adminOnly              -- line 198
  | adminMenuPrompt        -- line 202
  | dbConnectionError      -- lines 208, 230, 330
  | userList               -- line 214/215
  | enterNewUserId         -- line 220
  | invalidId              -- line 226
  | userExists             -- line 236
  | userAdded              -- line 242
  | userAddedNoNotify      -- line 244
  | userAddError           -- line 245
  | noUsersToRemove        -- line 257
  | whichUserRemove        -- line 261
  | invalidSelection       -- lines 268, 301, 325, 576, 621, 632
  | userRemoved            -- line 277
  | userNotFound           -- line 280
  | userRemoveError        -- line 281
  | noPersons              -- line 290
  | choosePersonPrompt     -- line 294
  | noAccountsForPerson    -- lines 308, 530
  | chooseAnotherPerson    -- line 313
  | chooseAccountPrompt    -- line 318
  | accountNotFound        -- line 337
  | accountDetails         -- lines 342-347
  | cardPhoto              -- line 349
  | cardPhotoFailed        -- line 350
  | editMenuPrompt         -- line 358
  | addForWhomPrompt       -- line 369
  | enterNewPersonName     -- line 373
  | nameEmpty              -- lines 379, 592
  | personAdded            -- line 389
  | personExists           -- line 391
  | personAddError         -- line 394
  | promptBank             -- lines 399, 418
  | noPersonsAddFirst      -- line 405
  | addForWhichPerson      -- line 409
  | promptAccountNumber    -- line 423
  | promptCardNumber       -- line 428
  | promptShaba            -- line 433
  | promptPhoto            -- line 438
  | photoOrSkip            -- line 447
  | accountSaved           -- line 459
  | accountSaveError       -- line 460
  | deleteWhatPrompt       -- line 471
  | noPersonsToDelete      -- line 477
  | deleteWhichPerson      -- line 481
  | confirmDeletePerson    -- line 490
  | personDeleted          -- line 502
  | personDeleteError      -- line 503
  | deleteCancelled        -- line 509
  | noPersonsExist         -- line 517
  | accountForWhichPerson  -- line 521
  | deleteWhichAccount     -- line 534
  | confirmDeleteAccount   -- line 543
  | accountDeleted         -- line 555
  | accountDeleteError     -- line 556
  | noPersonsToChange      -- line 565
  | changeWhichPerson      -- line 569
  | whatChangePrompt       -- line 580
  | enterNewName           -- line 585
  | personNameChanged      -- line 600
  | personNameExists       -- line 601
  | personNameChangeError  -- line 602
  | noAccountsToEdit       -- line 610
  | changeWhichAccount     -- line 614
  | whichFieldPrompt       -- line 626
  | promptFieldValue       -- lines 635-639
  | internalError          -- line 648
  | sendPhotoSkipOrBack    -- line 657
  | sendTextSkipOrBack     -- line 662
  | fieldUpdated           -- line 674
  | fieldUpdateError       -- line 676
  | operationCancelled     -- line 687
deriving DecidableEq, Repr

/-- The in-progress account buffer `context.user_data['new_account']`
(a Python dict whose `.get` yields `None` for unset keys). -/
structure NewAccount where
  bank_name : Option String := none
  account_number : Option String := none
  card_number : Option String := none
  shaba_number : Option String := none
  card_photo_id : Option String := none
deriving DecidableEq, Repr

/-- `context.user_data`, the per-conversation session bag.  A key that was
never written is modelled by the field default (`[]`/`none`), matching the
sources' `.get(key)` / `.get(key, {})` reads.  `user_data.clear()` is the
default value `{}`. -/
structure Session where
  persons_list : List (String × Nat) := []
  accounts_list : List (String × Nat) := []
  selected_person_id : Option Nat := none
  selected_person_name : Option String := none
  new_account_person_id : Option Nat := none
  new_account : Option NewAccount := none
  person_to_delete : Option (Nat × String) := none
  account_to_delete : Option (Nat × String) := none
  change_person : Option (Nat × String) := none
  change_account_id : Option Nat := none
  change_field : Option String := none
deriving DecidableEq, Repr

/-- What one handler invocation produces: the state it returns to the
`ConversationHandler`, the session bag and database afterwards, and the
replies sent, in order. -/
structure HandlerResult where
  state : ConvState
  sess : Session
  db : DB
  msgs : List Msg
deriving DecidableEq, Repr

/-! ## Python-semantics helpers -/

/-- Python `dict.get(k)` on the `{name: id}` dictionaries stored in the
session (`persons_list` / `accounts_list`). -/
def dictLookupNat (m : List (String × Nat)) (k : String) : Option Nat :=
  (m.find? (fun kv => kv.1 == k)).map (·.2)

/-- Python `x or 'N/A'` on a nullable text column (both `None` and the
empty string are falsy). -/
def pyOrNA : Option String → String
  | none => "N/A"
  | some s => if s == "" then "N/A" else s

/-- Python truthiness of a nullable string (`None` and `""` are falsy). -/
def pyTruthyStr : Option String → Bool
  | none => false
  | some s => s != ""

/-- Python truthiness of a nullable integer id (`None` and `0` are falsy). -/
def pyTruthyNat : Option Nat → Bool
  | none => false
  | some n => n != 0

/-- Strip leading and trailing characters satisfying `p` (Python
`str.strip`), on the character list of a string. -/
def stripChars (p : Char → Bool) (cs : List Char) : List Char :=
  ((cs.dropWhile p).reverse.dropWhile p).reverse

/-- Python `str.strip()` — used for the `.strip()` calls of
src/main.py lines 377 and 589 and inside `int(...)`. -/
def pyStrip (s : String) : String :=
  ⟨stripChars Char.isWhitespace s.data⟩

/-- The digits of a numeral, if the character list is a nonempty string
of decimal digits. -/
def digitsToNat : List Char → Option Nat
  | [] => none
  | cs =>
    if cs.all Char.isDigit then
      some (cs.foldl (fun n c => n * 10 + (c.toNat - 48)) 0)
    else none

/-- Python `int(s)`: surrounding whitespace and one leading sign are
accepted, anything else raises `ValueError` (here: `none`).  (`int` also
accepts underscore digit separators, which no input of interest uses.) -/
def pyInt (s : String) : Option Int :=
  match stripChars Char.isWhitespace s.data with
  | '-' :: rest => (digitsToNat rest).map (fun n => -(n : Int))
  | '+' :: rest => (digitsToNat rest).map (fun n => (n : Int))
  | rest => (digitsToNat rest).map (fun n => (n : Int))

/-- Python `s.split('(')` on the character list: split at every `'('`. -/
def splitOnParen : List Char → List (List Char)
  | [] => [[]]
  | c :: rest =>
    if c = '(' then [] :: splitOnParen rest
    else
      match splitOnParen rest with
      | [] => [[c]]
      | g :: gs => (c :: g) :: gs

/-- `int(update.message.text.split('(')[-1].strip(')'))` from
`admin_remove_user` (src/main.py line 266); `none` models the caught
`(ValueError, TypeError, IndexError)`. -/
def parseRemoveTarget (text : String) : Option Int :=
  pyInt ⟨stripChars (· = ')') ((splitOnParen text.data).getLastD [])⟩

/-- Insertion sort by person name, the `ORDER BY name` of
`get_persons_from_db` (src/main.py line 146). -/
def insertByName (p : Person) : List Person → List Person
  | [] => [p]
  | q :: qs => if p.name ≤ q.name then p :: q :: qs else q :: insertByName p qs

def sortPersonsByName (l : List Person) : List Person :=
  l.foldr insertByName []

/-! ## Remaining SQL statements as pure functions -/

/-- `INSERT INTO users ... ON CONFLICT (telegram_id) DO UPDATE SET
first_name = EXCLUDED.first_name` (src/main.py line 179). -/
def upsertUser (users : List UserRow) (uid : Int) (name : String) : List UserRow :=
  if users.any (fun u => u.telegram_id == uid) then
    users.map (fun u => if u.telegram_id == uid then { u with first_name := name } else u)
  else users ++ [⟨uid, name⟩]

/-- `INSERT INTO persons (name) VALUES (%s) RETURNING id`
(src/main.py line 385) under the schema's `UNIQUE` constraint on `name`:
a duplicate raises `psycopg2.IntegrityError` (`none`); otherwise the row
is inserted with the fresh `SERIAL` id `newId`. -/
def insertPerson (db : DB) (name : String) (newId : Nat) : Option DB :=
  if db.persons.any (fun p => p.name == name) then none
  else some { db with persons := db.persons ++ [⟨newId, name⟩] }

/-- `INSERT INTO accounts (person_id, bank_name, account_number,
card_number, shaba_number, card_photo_id) VALUES (...)`
(src/main.py lines 454-457), with fresh `SERIAL` id `newId`. -/
def insertAccount (db : DB) (newId : Nat) (pid : Nat) (na : NewAccount) : DB :=
  { db with accounts := db.accounts ++
      [⟨newId, pid, na.bank_name, na.account_number, na.card_number,
        na.shaba_number, na.card_photo_id⟩] }

/-- `DELETE FROM accounts WHERE id = %s` (src/main.py line 553). -/
def deleteAccount (db : DB) (aid : Nat) : DB :=
  { db with accounts := db.accounts.filter (fun a => a.id != aid) }

/-- `DELETE FROM users WHERE telegram_id = %s` (src/main.py line 274),
returning the new table and `cur.rowcount`. -/
def deleteUser (users : List UserRow) (tid : Int) : List UserRow × Nat :=
  (users.filter (fun u => u.telegram_id != tid),
   (users.filter (fun u => u.telegram_id == tid)).length)

/-- `UPDATE persons SET name = %s WHERE id = %s` (src/main.py line 598)
under the `UNIQUE` constraint on `name`: renaming onto a name held by a
different row raises `psycopg2.IntegrityError` (`none`). -/
def updatePersonName (db : DB) (pid : Nat) (newName : String) : Option DB :=
  if db.persons.any (fun p => p.name == newName && p.id != pid) then none
  else some { db with
    persons := db.persons.map
      (fun p => if p.id == pid then { p with name := newName } else p) }

/-- The columns of the `accounts` table that exist in the schema
(src/main.py lines 94-104) besides the two ids. -/
def validColumns : List String :=
  ["bank_name", "account_number", "card_number", "shaba_number", "card_photo_id"]

/-- Reading back the column `col` of an account row. -/
def getColumn (a : Account) (col : String) : Option String :=
  if col == "bank_name" then a.bank_name
  else if col == "account_number" then a.account_number
  else if col == "card_number" then a.card_number
  else if col == "shaba_number" then a.shaba_number
  else if col == "card_photo_id" then a.card_photo_id
  else none

/-- `SET {col} = %s` on one row; `none` when `col` is not a column of the
table (the statement would be rejected by the database). -/
def setColumn (a : Account) (col : String) (v : Option String) : Option Account :=
  if col == "bank_name" then some { a with bank_name := v }
  else if col == "account_number" then some { a with account_number := v }
  else if col == "card_number" then some { a with card_number := v }
  else if col == "shaba_number" then some { a with shaba_number := v }
  else if col == "card_photo_id" then some { a with card_photo_id := v }
  else none

/-- The effect of `UPDATE accounts SET {col} = %s WHERE id = %s` on one
row of the table. -/
def editedRow (col : String) (v : Option String) (aid : Nat) (b : Account) : Account :=
  if b.id == aid then (setColumn b col v).getD b else b

/-- `UPDATE accounts SET {col} = %s WHERE id = %s`
(src/main.py line 671); `none` models the `psycopg2.Error` raised for a
column name that is not in the schema. -/
def updateAccountsColumn (db : DB) (col : String) (v : Option String) (aid : Nat) : Option DB :=
  if validColumns.contains col then
    some { db with accounts := db.accounts.map (editedRow col v aid) }
  else none

end MainPy

namespace MainPy

/-! ## Handler embeddings (src/main.py)

Each `def` below carries the name of the `async def` it embeds.  The
pieces of ambient state a handler reads are bundled in `Env`:
whether `get_db_connection()` succeeds (`connOk`), the configured
`ADMIN_TELEGRAM_ID`, the sender (`uid`, `first_name`), the next value the
database's `SERIAL` sequence would hand out (`freshId`), and whether an
outbound transport call (notification / photo send) succeeds
(`notifyOk`).
-/

structure Env where
  connOk : Bool
  adminId : Int
  uid : Int
  first_name : String
  freshId : Nat
  notifyOk : Bool
deriving DecidableEq, Repr

/-- Prepend replies sent before delegating to another handler
(`await update.message.reply_text(...)` followed by
`return await other_handler(update, context)`). -/
def withMsgs (ms : List Msg) (r : HandlerResult) : HandlerResult :=
  { r with msgs := ms ++ r.msgs }

/-- `is_authorized` (src/main.py lines 116-125): `False` when no
database connection can be obtained, otherwise row existence. -/
def is_authorized (env : Env) (db : DB) : Bool :=
  env.connOk && db.users.any (fun u => u.telegram_id == env.uid)

/-- `is_admin` (src/main.py lines 127-129). -/
def is_admin (env : Env) : Bool :=
  env.uid == env.adminId

/-- `start` (src/main.py lines 168-189): refuse unauthorized users
(ending the conversation), otherwise upsert the caller's name and render
the main menu.  It does not clear the session. -/
def start (env : Env) (db : DB) (sess : Session) : HandlerResult :=
  if ¬ is_authorized env db then
    { state := .END, sess := sess, db := db, msgs := [.notAuthorized] }
  else
    let db' :=
      if env.connOk then { db with users := upsertUser db.users env.uid env.first_name }
      else db
    { state := .MAIN_MENU, sess := sess, db := db', msgs := [.welcome] }

/-- `main_menu` (src/main.py lines 191-193): clear the session, then
`start`. -/
def main_menu (env : Env) (db : DB) : HandlerResult :=
  start env db {}

/-- `admin_menu` (src/main.py lines 196-203). -/
def admin_menu (env : Env) (db : DB) (sess : Session) : HandlerResult :=
  if ¬ is_admin env then
    { state := .MAIN_MENU, sess := sess, db := db, msgs := [.adminOnly] }
  else
    { state := .ADMIN_MENU, sess := sess, db := db, msgs := [.adminMenuPrompt] }

/-- `admin_view_users` (src/main.py lines 205-217). -/
def admin_view_users (env : Env) (db : DB) (sess : Session) : HandlerResult :=
  if ¬ env.connOk then
    { state := .ADMIN_MENU, sess := sess, db := db, msgs := [.dbConnectionError] }
  else
    { state := .ADMIN_MENU, sess := sess, db := db, msgs := [.userList] }

/-- `admin_prompt_add_user` (src/main.py lines 219-221). -/
def admin_prompt_add_user (db : DB) (sess : Session) : HandlerResult :=
  { state := .ADMIN_ADD_USER, sess := sess, db := db, msgs := [.enterNewUserId] }

/-- `admin_add_user` (src/main.py lines 223-247). -/
def admin_add_user (env : Env) (db : DB) (sess : Session) (t : String) : HandlerResult :=
  match pyInt t with
  | none => { state := .ADMIN_ADD_USER, sess := sess, db := db, msgs := [.invalidId] }
  | some uid_to_add =>
    if ¬ env.connOk then withMsgs [.dbConnectionError] (admin_menu env db sess)
    else if db.users.any (fun u => u.telegram_id == uid_to_add) then
      withMsgs [.userExists] (admin_menu env db sess)
    else
      let db' := { db with users := db.users ++ [⟨uid_to_add, "N/A"⟩] }
      let m := if env.notifyOk then Msg.userAdded else Msg.userAddedNoNotify
      withMsgs [m] (admin_menu env db' sess)

/-- The button labels `admin_prompt_remove_user` offers
(src/main.py line 259): every user except the configured admin. -/
def removeUserButtons (adminId : Int) (users : List UserRow) : List String :=
  (users.filter (fun u => u.telegram_id != adminId)).map
    (fun u => u.first_name ++ " (" ++ toString u.telegram_id ++ ")")

/-- `admin_prompt_remove_user` (src/main.py lines 249-263). -/
def admin_prompt_remove_user (env : Env) (db : DB) (sess : Session) : HandlerResult :=
  if ¬ env.connOk then admin_menu env db sess
  else if (db.users.filter (fun u => u.telegram_id != env.adminId)).isEmpty then
    withMsgs [.noUsersToRemove] (admin_menu env db sess)
  else
    { state := .ADMIN_REMOVE_USER, sess := sess, db := db, msgs := [.whichUserRemove] }

/-- `admin_remove_user` (src/main.py lines 265-283): parse the id out of
the pressed button text and `DELETE FROM users WHERE telegram_id = %s`.
There is no check against the parsed id being the admin's own. -/
def admin_remove_user (env : Env) (db : DB) (sess : Session) (t : String) : HandlerResult :=
  match parseRemoveTarget t with
  | none => { state := .ADMIN_REMOVE_USER, sess := sess, db := db, msgs := [.invalidSelection] }
  | some tid =>
    if ¬ env.connOk then admin_menu env db sess
    else
      let res := deleteUser db.users tid
      let db' := { db with users := res.1 }
      if res.2 > 0 then withMsgs [.userRemoved] (admin_menu env db' sess)
      else withMsgs [.userNotFound] (admin_menu env db' sess)

/-- `get_persons_from_db` (src/main.py lines 140-151): `none` when the
connection fails; otherwise the rows ordered by name, with the
`{name: id}` dictionary stored into the session. -/
def get_persons_from_db (env : Env) (db : DB) (sess : Session) :
    Option (List Person) × Session :=
  if ¬ env.connOk then (none, sess)
  else
    let ps := sortPersonsByName db.persons
    (some ps, { sess with persons_list := ps.map (fun p => (p.name, p.id)) })

/-- The account button key built at src/main.py line 162:
`f"{bank or 'N/A'} - {card or 'N/A'} ({id})"`. -/
def accountKey (a : Account) : String :=
  pyOrNA a.bank_name ++ " - " ++ pyOrNA a.card_number ++ " (" ++ toString a.id ++ ")"

/-- `get_accounts_for_person_from_db` (src/main.py lines 153-165); the
`person_id` argument may be Python `None` (matches no row). -/
def get_accounts_for_person_from_db (env : Env) (db : DB) (sess : Session)
    (pidOpt : Option Nat) : Option (List Account) × Session :=
  if ¬ env.connOk then (none, sess)
  else
    let accs := match pidOpt with
      | none => []
      | some pid => db.accounts.filter (fun a => a.person_id == pid)
    (some accs, { sess with accounts_list := accs.map (fun a => (accountKey a, a.id)) })

/-- `view_choose_person` (src/main.py lines 287-295). -/
def view_choose_person (env : Env) (db : DB) (sess : Session) : HandlerResult :=
  let r := get_persons_from_db env db sess
  if (r.1.getD []).isEmpty then withMsgs [.noPersons] (start env db r.2)
  else { state := .VIEW_CHOOSE_PERSON, sess := r.2, db := db, msgs := [.choosePersonPrompt] }

/-- `view_choose_account` (src/main.py lines 297-319). -/
def view_choose_account (env : Env) (db : DB) (sess : Session) (t : String) : HandlerResult :=
  match dictLookupNat sess.persons_list t with
  | none =>
    { state := .VIEW_CHOOSE_PERSON, sess := sess, db := db, msgs := [.invalidSelection] }
  | some pid =>
    if pid == 0 then
      { state := .VIEW_CHOOSE_PERSON, sess := sess, db := db, msgs := [.invalidSelection] }
    else
      let s1 := { sess with selected_person_id := some pid, selected_person_name := some t }
      let ra := get_accounts_for_person_from_db env db s1 (some pid)
      if (ra.1.getD []).isEmpty then
        let rp := get_persons_from_db env db ra.2
        { state := .VIEW_CHOOSE_PERSON, sess := rp.2, db := db,
          msgs := [.noAccountsForPerson, .chooseAnotherPerson] }
      else
        { state := .VIEW_CHOOSE_ACCOUNT, sess := ra.2, db := db, msgs := [.chooseAccountPrompt] }

/-- `view_display_account_details` (src/main.py lines 321-352). -/
def view_display_account_details (env : Env) (db : DB) (sess : Session) (t : String) :
    HandlerResult :=
  match dictLookupNat sess.accounts_list t with
  | none =>
    { state := .VIEW_CHOOSE_ACCOUNT, sess := sess, db := db, msgs := [.invalidSelection] }
  | some aid =>
    if aid == 0 then
      { state := .VIEW_CHOOSE_ACCOUNT, sess := sess, db := db, msgs := [.invalidSelection] }
    else if ¬ env.connOk then
      { state := .MAIN_MENU, sess := sess, db := db, msgs := [.dbConnectionError] }
    else
      match findAccount db aid with
      | none => withMsgs [.accountNotFound] (view_choose_account env db sess t)
      | some a =>
        let photoMsgs :=
          if pyTruthyStr a.card_photo_id then
            if env.notifyOk then [Msg.cardPhoto] else [Msg.cardPhotoFailed]
          else []
        { state := .VIEW_CHOOSE_ACCOUNT, sess := sess, db := db,
          msgs := [Msg.accountDetails] ++ photoMsgs }

/-- `edit_menu` (src/main.py lines 355-360): renders the edit menu and
clears the whole session (`context.user_data.clear()`, line 359). -/
def edit_menu (db : DB) : HandlerResult :=
  { state := .EDIT_MENU, sess := {}, db := db, msgs := [.editMenuPrompt] }

/-- `add_choose_person_type` (src/main.py lines 367-370). -/
def add_choose_person_type (db : DB) (sess : Session) : HandlerResult :=
  { state := .ADD_CHOOSE_PERSON_TYPE, sess := sess, db := db, msgs := [.addForWhomPrompt] }

/-- `add_prompt_new_person_name` (src/main.py lines 372-374). -/
def add_prompt_new_person_name (db : DB) (sess : Session) : HandlerResult :=
  { state := .ADD_NEW_PERSON_NAME, sess := sess, db := db, msgs := [.enterNewPersonName] }

/-- `add_save_new_person_and_prompt_bank` (src/main.py lines 376-400):
insert the new person; a `UNIQUE`-name violation is caught as
`psycopg2.IntegrityError` and answered with the dedicated
"person with this name exists" reply, staying in the name-entry state. -/
def add_save_new_person_and_prompt_bank (env : Env) (db : DB) (sess : Session)
    (t : String) : HandlerResult :=
  let person_name := pyStrip t
  if person_name == "" then
    { state := .ADD_NEW_PERSON_NAME, sess := sess, db := db, msgs := [.nameEmpty] }
  else if ¬ env.connOk then edit_menu db
  else
    match insertPerson db person_name env.freshId with
    | none =>
      { state := .ADD_NEW_PERSON_NAME, sess := sess, db := db, msgs := [.personExists] }
    | some db' =>
      { state := .ADD_ACCOUNT_BANK,
        sess := { sess with new_account_person_id := some env.freshId,
                            new_account := some {} },
        db := db', msgs := [.personAdded, .promptBank] }

/-- `add_choose_existing_person` (src/main.py lines 402-410). -/
def add_choose_existing_person (env : Env) (db : DB) (sess : Session) : HandlerResult :=
  let r := get_persons_from_db env db sess
  if (r.1.getD []).isEmpty then withMsgs [.noPersonsAddFirst] (add_choose_person_type db r.2)
  else
    { state := .ADD_CHOOSE_EXISTING_PERSON, sess := r.2, db := db, msgs := [.addForWhichPerson] }

/-- `add_set_existing_person_and_prompt_bank` (src/main.py lines
412-419): an unknown selection silently re-enters the same state
(line 415 sends no reply). -/
def add_set_existing_person_and_prompt_bank (db : DB) (sess : Session) (t : String) :
    HandlerResult :=
  match dictLookupNat sess.persons_list t with
  | none => { state := .ADD_CHOOSE_EXISTING_PERSON, sess := sess, db := db, msgs := [] }
  | some pid =>
    if pid == 0 then
      { state := .ADD_CHOOSE_EXISTING_PERSON, sess := sess, db := db, msgs := [] }
    else
      { state := .ADD_ACCOUNT_BANK,
        sess := { sess with new_account_person_id := some pid, new_account := some {} },
        db := db, msgs := [.promptBank] }

/-- `None if update.message.text == SKIP_BUTTON else update.message.text`
(src/main.py lines 422, 427, 432, 437). -/
def skipOr (t : String) : Option String :=
  if t == SKIP_BUTTON then none else some t

/-- `add_account_get_bank` (src/main.py lines 421-424). -/
def add_account_get_bank (db : DB) (sess : Session) (t : String) : HandlerResult :=
  let na := sess.new_account.getD {}
  { state := .ADD_ACCOUNT_NUMBER,
    sess := { sess with new_account := some { na with bank_name := skipOr t } },
    db := db, msgs := [.promptAccountNumber] }

/-- `add_account_get_number` (src/main.py lines 426-429). -/
def add_account_get_number (db : DB) (sess : Session) (t : String) : HandlerResult :=
  let na := sess.new_account.getD {}
  { state := .ADD_ACCOUNT_CARD,
    sess := { sess with new_account := some { na with account_number := skipOr t } },
    db := db, msgs := [.promptCardNumber] }

/-- `add_account_get_card` (src/main.py lines 431-434): the card number
is stored exactly as typed (no shape check), `SKIP_BUTTON` stores null. -/
def add_account_get_card (db : DB) (sess : Session) (t : String) : HandlerResult :=
  let na := sess.new_account.getD {}
  { state := .ADD_ACCOUNT_SHABA,
    sess := { sess with new_account := some { na with card_number := skipOr t } },
    db := db, msgs := [.promptShaba] }

/-- `add_account_get_shaba` (src/main.py lines 436-439): the IBAN is
stored exactly as typed (the prompt asks for it without the "IR"
prefix and none is added), `SKIP_BUTTON` stores null. -/
def add_account_get_shaba (db : DB) (sess : Session) (t : String) : HandlerResult :=
  let na := sess.new_account.getD {}
  { state := .ADD_ACCOUNT_PHOTO,
    sess := { sess with new_account := some { na with shaba_number := skipOr t } },
    db := db, msgs := [.promptPhoto] }

/-- `add_account_get_photo_and_save` (src/main.py lines 441-464).
The `INSERT` is subject to the foreign key `accounts.person_id
REFERENCES persons(id)`: a dangling person id raises `psycopg2.Error`
(caught at line 460). -/
def add_account_get_photo_and_save (env : Env) (db : DB) (sess : Session)
    (input : TgInput) : HandlerResult :=
  let na := sess.new_account.getD {}
  let proceed : NewAccount → HandlerResult := fun na' =>
    let sess' := { sess with new_account := some na' }
    match sess.new_account_person_id with
    | none => start env db sess'
    | some pid =>
      if pid == 0 then start env db sess'
      else if ¬ env.connOk then edit_menu db
      else if db.persons.any (fun p => p.id == pid) then
        withMsgs [.accountSaved] (edit_menu (insertAccount db env.freshId pid na'))
      else
        withMsgs [.accountSaveError] (edit_menu db)
  match input with
  | .photo fid => proceed { na with card_photo_id := some fid }
  | .text t =>
    if t == SKIP_BUTTON then proceed { na with card_photo_id := none }
    else { state := .ADD_ACCOUNT_PHOTO, sess := sess, db := db, msgs := [.photoOrSkip] }

/-- `delete_choose_type` (src/main.py lines 469-472). -/
def delete_choose_type (db : DB) (sess : Session) : HandlerResult :=
  { state := .DELETE_CHOOSE_TYPE, sess := sess, db := db, msgs := [.deleteWhatPrompt] }

/-- `delete_choose_person` (src/main.py lines 474-482). -/
def delete_choose_person (env : Env) (db : DB) (sess : Session) : HandlerResult :=
  let r := get_persons_from_db env db sess
  if (r.1.getD []).isEmpty then withMsgs [.noPersonsToDelete] (edit_menu db)
  else { state := .DELETE_CHOOSE_PERSON, sess := r.2, db := db, msgs := [.deleteWhichPerson] }

/-- `delete_confirm_person` (src/main.py lines 484-491): an unknown
selection silently re-enters the same state (line 487). -/
def delete_confirm_person (db : DB) (sess : Session) (t : String) : HandlerResult :=
  match dictLookupNat sess.persons_list t with
  | none => { state := .DELETE_CHOOSE_PERSON, sess := sess, db := db, msgs := [] }
  | some pid =>
    if pid == 0 then
      { state := .DELETE_CHOOSE_PERSON, sess := sess, db := db, msgs := [] }
    else
      { state := .DELETE_CONFIRM_PERSON,
        sess := { sess with person_to_delete := some (pid, t) },
        db := db, msgs := [.confirmDeletePerson] }

/-- `delete_execute_person_deletion` (src/main.py lines 493-506). -/
def delete_execute_person_deletion (env : Env) (db : DB) (sess : Session) : HandlerResult :=
  match sess.person_to_delete with
  | none => edit_menu db
  | some pd =>
    if ¬ env.connOk then edit_menu db
    else withMsgs [.personDeleted] (edit_menu (deletePersonCascade db pd.1))

/-- `delete_cancel` (src/main.py lines 508-512). -/
def delete_cancel (db : DB) : HandlerResult :=
  withMsgs [.deleteCancelled] (edit_menu db)

/-- `delete_choose_account_for_person` (src/main.py lines 514-522). -/
def delete_choose_account_for_person (env : Env) (db : DB) (sess : Session) : HandlerResult :=
  let r := get_persons_from_db env db sess
  if (r.1.getD []).isEmpty then withMsgs [.noPersonsExist] (edit_menu db)
  else
    { state := .DELETE_CHOOSE_ACCOUNT_FOR_PERSON, sess := r.2, db := db,
      msgs := [.accountForWhichPerson] }

/-- `delete_choose_account` (src/main.py lines 524-535): an unknown
selection silently re-enters the same state (line 527). -/
def delete_choose_account (env : Env) (db : DB) (sess : Session) (t : String) :
    HandlerResult :=
  match dictLookupNat sess.persons_list t with
  | none =>
    { state := .DELETE_CHOOSE_ACCOUNT_FOR_PERSON, sess := sess, db := db, msgs := [] }
  | some pid =>
    if pid == 0 then
      { state := .DELETE_CHOOSE_ACCOUNT_FOR_PERSON, sess := sess, db := db, msgs := [] }
    else
      let ra := get_accounts_for_person_from_db env db sess (some pid)
      if (ra.1.getD []).isEmpty then
        withMsgs [.noAccountsForPerson] (delete_choose_account_for_person env db ra.2)
      else
        { state := .DELETE_CHOOSE_ACCOUNT, sess := ra.2, db := db, msgs := [.deleteWhichAccount] }

/-- `delete_confirm_account` (src/main.py lines 537-544): an unknown
selection silently re-enters the same state (line 540). -/
def delete_confirm_account (db : DB) (sess : Session) (t : String) : HandlerResult :=
  match dictLookupNat sess.accounts_list t with
  | none => { state := .DELETE_CHOOSE_ACCOUNT, sess := sess, db := db, msgs := [] }
  | some aid =>
    if aid == 0 then
      { state := .DELETE_CHOOSE_ACCOUNT, sess := sess, db := db, msgs := [] }
    else
      { state := .DELETE_CONFIRM_ACCOUNT,
        sess := { sess with account_to_delete := some (aid, t) },
        db := db, msgs := [.confirmDeleteAccount] }

/-- `delete_execute_account_deletion` (src/main.py lines 546-559). -/
def delete_execute_account_deletion (env : Env) (db : DB) (sess : Session) : HandlerResult :=
  match sess.account_to_delete with
  | none => edit_menu db
  | some ad =>
    if ¬ env.connOk then edit_menu db
    else withMsgs [.accountDeleted] (edit_menu (deleteAccount db ad.1))

/-- `change_choose_person` (src/main.py lines 562-570). -/
def change_choose_person (env : Env) (db : DB) (sess : Session) : HandlerResult :=
  let r := get_persons_from_db env db sess
  if (r.1.getD []).isEmpty then withMsgs [.noPersonsToChange] (edit_menu db)
  else { state := .CHANGE_CHOOSE_PERSON, sess := r.2, db := db, msgs := [.changeWhichPerson] }

/-- `change_choose_target` (src/main.py lines 572-581). -/
def change_choose_target (db : DB) (sess : Session) (t : String) : HandlerResult :=
  match dictLookupNat sess.persons_list t with
  | none =>
    { state := .CHANGE_CHOOSE_PERSON, sess := sess, db := db, msgs := [.invalidSelection] }
  | some pid =>
    if pid == 0 then
      { state := .CHANGE_CHOOSE_PERSON, sess := sess, db := db, msgs := [.invalidSelection] }
    else
      { state := .CHANGE_CHOOSE_TARGET,
        sess := { sess with change_person := some (pid, t) },
        db := db, msgs := [.whatChangePrompt] }

/-- `change_prompt_person_name` (src/main.py lines 583-586). -/
def change_prompt_person_name (db : DB) (sess : Session) : HandlerResult :=
  { state := .CHANGE_PROMPT_PERSON_NAME, sess := sess, db := db, msgs := [.enterNewName] }

/-- `change_save_person_name` (src/main.py lines 588-604).  A failed
connection (line 595) silently delegates to `edit_menu`, which clears
the session; a duplicate name is the caught `IntegrityError`. -/
def change_save_person_name (env : Env) (db : DB) (sess : Session) (t : String) :
    HandlerResult :=
  let new_name := pyStrip t
  match sess.change_person with
  | none =>
    { state := .CHANGE_PROMPT_PERSON_NAME, sess := sess, db := db, msgs := [.nameEmpty] }
  | some pinfo =>
    if new_name == "" then
      { state := .CHANGE_PROMPT_PERSON_NAME, sess := sess, db := db, msgs := [.nameEmpty] }
    else if ¬ env.connOk then edit_menu db
    else
      match updatePersonName db pinfo.1 new_name with
      | none => withMsgs [.personNameExists] (edit_menu db)
      | some db' => withMsgs [.personNameChanged] (edit_menu db')

/-- `change_choose_account` (src/main.py lines 606-615); the selected
person id may be absent (Python `None`). -/
def change_choose_account (env : Env) (db : DB) (sess : Session) (t : String) :
    HandlerResult :=
  let ra := get_accounts_for_person_from_db env db sess (sess.change_person.map (·.1))
  if (ra.1.getD []).isEmpty then
    withMsgs [.noAccountsToEdit] (change_choose_target db ra.2 t)
  else
    { state := .CHANGE_CHOOSE_ACCOUNT, sess := ra.2, db := db, msgs := [.changeWhichAccount] }

/-- `change_choose_field` (src/main.py lines 617-627). -/
def change_choose_field (db : DB) (sess : Session) (t : String) : HandlerResult :=
  match dictLookupNat sess.accounts_list t with
  | none =>
    { state := .CHANGE_CHOOSE_ACCOUNT, sess := sess, db := db, msgs := [.invalidSelection] }
  | some aid =>
    if aid == 0 then
      { state := .CHANGE_CHOOSE_ACCOUNT, sess := sess, db := db, msgs := [.invalidSelection] }
    else
      { state := .CHANGE_CHOOSE_FIELD,
        sess := { sess with change_account_id := some aid },
        db := db, msgs := [.whichFieldPrompt] }

/-- `change_prompt_field_value` (src/main.py lines 629-640): the chosen
field label is checked for membership in `FIELD_TO_COLUMN_MAP` before it
is remembered in the session. -/
def change_prompt_field_value (db : DB) (sess : Session) (t : String) : HandlerResult :=
  if ¬ FIELD_TO_COLUMN_MAP.any (fun kv => kv.1 == t) then
    { state := .CHANGE_CHOOSE_FIELD, sess := sess, db := db, msgs := [.invalidSelection] }
  else
    { state := .CHANGE_PROMPT_FIELD_VALUE,
      sess := { sess with change_field := some t },
      db := db, msgs := [.promptFieldValue] }

/-- The `new_value` computation of `change_save_field_value`
(src/main.py lines 651-663): `some v` is a value to store (`none` = SQL
null), the outer `none` is the "please send a proper value" re-prompt. -/
def capturedValue (col : String) (input : TgInput) : Option (Option String) :=
  if input.asText == some SKIP_BUTTON then some none
  else if col == "card_photo_id" then
    match input with
    | .photo fid => some (some fid)
    | .text _ => none
  else
    match input with
    | .text t => if t == "" then none else some (some t)
    | .photo _ => none

/-- Result of `change_save_field_value`, additionally recording the
`(column, value, account id)` actually interpolated into the executed
`UPDATE accounts SET {column} = %s WHERE id = %s` statement (line 671),
`none` when no SQL was executed at all. -/
structure SaveFieldResult extends HandlerResult where
  executedUpdate : Option (String × Option String × Nat) := none
deriving DecidableEq, Repr

/-- `change_save_field_value` (src/main.py lines 642-682).  The guard
`if not all([field_name, account_id, column_name])` (line 647) aborts to
the edit menu whenever the field, the account id, or the column looked
up via `FIELD_TO_COLUMN_MAP.get` is missing or falsy. -/
def change_save_field_value (env : Env) (db : DB) (sess : Session) (input : TgInput) :
    SaveFieldResult :=
  match sess.change_field, sess.change_account_id with
  | some f, some aid =>
    if f == "" || aid == 0 then
      { toHandlerResult := withMsgs [.internalError] (edit_menu db) }
    else
      match dictGet FIELD_TO_COLUMN_MAP f with
      | none => { toHandlerResult := withMsgs [.internalError] (edit_menu db) }
      | some col =>
        match capturedValue col input with
        | none =>
          let m := if col == "card_photo_id" then Msg.sendPhotoSkipOrBack
                   else Msg.sendTextSkipOrBack
          { state := .CHANGE_PROMPT_FIELD_VALUE, sess := sess, db := db, msgs := [m] }
        | some v =>
          if ¬ env.connOk then { toHandlerResult := edit_menu db }
          else
            match updateAccountsColumn db col v aid with
            | some db' =>
              { toHandlerResult := withMsgs [.fieldUpdated] (edit_menu db'),
                executedUpdate := some (col, v, aid) }
            | none =>
              { toHandlerResult := withMsgs [.fieldUpdateError] (edit_menu db),
                executedUpdate := some (col, v, aid) }
  | _, _ => { toHandlerResult := withMsgs [.internalError] (edit_menu db) }

end MainPy

namespace MainPy

/-! ## The `ConversationHandler` table of `main()` (src/main.py 692-765)

Button labels of the `filters.Regex("^...$")` handlers, again code point
for code point from the source.
-/

def BTN_VIEW_INFO : String := "Ù…Ø´Ø§Ù‡Ø¯Ù‡ Ø§Ø·Ù„Ø§Ø¹Ø§Øª ğŸ“„"

def BTN_EDIT : String := "ÙˆÛŒØ±Ø§ÛŒØ´ âœï¸"

def BTN_ADMIN : String := "Ø§Ø¯Ù…ÛŒÙ† ğŸ› ï¸"

def BTN_VIEW_USERS : String := "Ù…Ø´Ø§Ù‡Ø¯Ù‡ Ú©Ø§Ø±Ø¨Ø±Ø§Ù† Ù…Ø¬Ø§Ø² ğŸ‘ï¸"

def BTN_ADD_USER : String := "Ø§ÙØ²ÙˆØ¯Ù† Ú©Ø§Ø±Ø¨Ø± â•"

def BTN_REMOVE_USER : String := "Ø­Ø°Ù Ú©Ø§Ø±Ø¨Ø± â–"

def BTN_ADD : String := "Ø§Ø¶Ø§ÙÙ‡ Ú©Ø±Ø¯Ù† â•"

def BTN_CHANGE : String := "ØªØºÛŒÛŒØ± Ø¯Ø§Ø¯Ù† ğŸ“"

def BTN_DELETE : String := "Ø­Ø°Ù Ú©Ø±Ø¯Ù† ğŸ—‘ï¸"

def BTN_NEW_PERSON : String := "Ø´Ø®Øµ Ø¬Ø¯ÛŒØ¯ ğŸ‘¤"

def BTN_EXISTING_PERSON : String := "Ø´Ø®Øµ Ù…ÙˆØ¬ÙˆØ¯ ğŸ‘¥"

def BTN_DELETE_PERSON : String := "Ø­Ø°Ù Ø´Ø®Øµ ğŸ‘¤"

def BTN_DELETE_ACCOUNT : String := "Ø­Ø°Ù Ø­Ø³Ø§Ø¨ ğŸ’³"

def BTN_CONFIRM_YES : String := "Ø¨Ù„Ù‡ØŒ Ø­Ø°Ù Ú©Ù† âœ…"

def BTN_CONFIRM_NO : String := "Ù†Ù‡ØŒ Ù„ØºÙˆ Ú©Ù† âŒ"

def BTN_CHANGE_PERSON_NAME : String := "ØªØºÛŒÛŒØ± Ù†Ø§Ù… Ø´Ø®Øµ ğŸ‘¤"

def BTN_EDIT_ACCOUNT : String := "ÙˆÛŒØ±Ø§ÛŒØ´ ÛŒÚ© Ø­Ø³Ø§Ø¨ ğŸ’³"

/-- The fallback chain of `main()` (src/main.py lines 742-761) for a
plain text update no state handler matched: `HOME_BUTTON` goes to
`main_menu`, `BACK_BUTTON` follows the per-state table of lines 746-757,
and anything else hits the terminal `MessageHandler(filters.ALL, start)`
catch-all. -/
def fallbackText (env : Env) (st : ConvState) (db : DB) (sess : Session) (t : String) :
    HandlerResult :=
  if t == HOME_BUTTON then main_menu env db
  else if t == BACK_BUTTON then
    match st with
    | .ADMIN_ADD_USER | .ADMIN_REMOVE_USER => admin_menu env db sess
    | .VIEW_CHOOSE_ACCOUNT => view_choose_person env db sess
    | .ADD_CHOOSE_PERSON_TYPE | .DELETE_CHOOSE_TYPE | .CHANGE_CHOOSE_PERSON => edit_menu db
    | .ADD_NEW_PERSON_NAME | .ADD_CHOOSE_EXISTING_PERSON => add_choose_person_type db sess
    | .DELETE_CHOOSE_PERSON | .DELETE_CHOOSE_ACCOUNT_FOR_PERSON => delete_choose_type db sess
    | .CHANGE_CHOOSE_TARGET => change_choose_person env db sess
    | .CHANGE_PROMPT_PERSON_NAME => change_choose_target db sess t
    | .CHANGE_CHOOSE_ACCOUNT => change_choose_target db sess t
    | .CHANGE_CHOOSE_FIELD => change_choose_account env db sess t
    | .CHANGE_PROMPT_FIELD_VALUE => change_choose_field db sess t
    | .ADD_ACCOUNT_BANK | .ADD_ACCOUNT_NUMBER | .ADD_ACCOUNT_CARD | .ADD_ACCOUNT_SHABA
    | .ADD_ACCOUNT_PHOTO => add_choose_person_type db sess
    | _ => start env db sess
  else start env db sess

/-- One plain-text (non-command) step of the conversation machine of
`main()` (src/main.py lines 696-763): the current state's registered
handlers are tried first — `filters.Regex("^label$")` handlers fire on
the exact label, `filters.TEXT & ~filters.COMMAND` handlers fire on any
text (so also on `HOME_BUTTON`/`BACK_BUTTON`) — and only an update no
state handler accepts reaches the fallbacks. -/
def stepText (env : Env) (st : ConvState) (db : DB) (sess : Session) (t : String) :
    HandlerResult :=
  match st with
  | .MAIN_MENU =>
    if t == BTN_VIEW_INFO then view_choose_person env db sess
    else if t == BTN_EDIT then edit_menu db
    else if t == BTN_ADMIN then admin_menu env db sess
    else fallbackText env .MAIN_MENU db sess t
  | .ADMIN_MENU =>
    if t == BTN_VIEW_USERS then admin_view_users env db sess
    else if t == BTN_ADD_USER then admin_prompt_add_user db sess
    else if t == BTN_REMOVE_USER then admin_prompt_remove_user env db sess
    else fallbackText env .ADMIN_MENU db sess t
  | .ADMIN_ADD_USER => admin_add_user env db sess t
  | .ADMIN_REMOVE_USER => admin_remove_user env db sess t
  | .VIEW_CHOOSE_PERSON => view_choose_account env db sess t
  | .VIEW_CHOOSE_ACCOUNT => view_display_account_details env db sess t
  | .EDIT_MENU =>
    if t == BTN_ADD then add_choose_person_type db sess
    else if t == BTN_CHANGE then change_choose_person env db sess
    else if t == BTN_DELETE then delete_choose_type db sess
    else fallbackText env .EDIT_MENU db sess t
  | .ADD_CHOOSE_PERSON_TYPE =>
    if t == BTN_NEW_PERSON then add_prompt_new_person_name db sess
    else if t == BTN_EXISTING_PERSON then add_choose_existing_person env db sess
    else fallbackText env .ADD_CHOOSE_PERSON_TYPE db sess t
  | .ADD_NEW_PERSON_NAME => add_save_new_person_and_prompt_bank env db sess t
  | .ADD_CHOOSE_EXISTING_PERSON => add_set_existing_person_and_prompt_bank db sess t
  | .ADD_ACCOUNT_BANK => add_account_get_bank db sess t
  | .ADD_ACCOUNT_NUMBER => add_account_get_number db sess t
  | .ADD_ACCOUNT_CARD => add_account_get_card db sess t
  | .ADD_ACCOUNT_SHABA => add_account_get_shaba db sess t
  | .ADD_ACCOUNT_PHOTO => add_account_get_photo_and_save env db sess (.text t)
  | .DELETE_CHOOSE_TYPE =>
    if t == BTN_DELETE_PERSON then delete_choose_person env db sess
    else if t == BTN_DELETE_ACCOUNT then delete_choose_account_for_person env db sess
    else fallbackText env .DELETE_CHOOSE_TYPE db sess t
  | .DELETE_CHOOSE_PERSON => delete_confirm_person db sess t
  | .DELETE_CONFIRM_PERSON =>
    if t == BTN_CONFIRM_YES then delete_execute_person_deletion env db sess
    else if t == BTN_CONFIRM_NO then delete_cancel db
    else fallbackText env .DELETE_CONFIRM_PERSON db sess t
  | .DELETE_CHOOSE_ACCOUNT_FOR_PERSON => delete_choose_account env db sess t
  | .DELETE_CHOOSE_ACCOUNT => delete_confirm_account db sess t
  | .DELETE_CONFIRM_ACCOUNT =>
    if t == BTN_CONFIRM_YES then delete_execute_account_deletion env db sess
    else if t == BTN_CONFIRM_NO then delete_cancel db
    else fallbackText env .DELETE_CONFIRM_ACCOUNT db sess t
  | .CHANGE_CHOOSE_PERSON => change_choose_target db sess t
  | .CHANGE_CHOOSE_TARGET =>
    if t == BTN_CHANGE_PERSON_NAME then change_prompt_person_name db sess
    else if t == BTN_EDIT_ACCOUNT then change_choose_account env db sess t
    else fallbackText env .CHANGE_CHOOSE_TARGET db sess t
  | .CHANGE_PROMPT_PERSON_NAME => change_save_person_name env db sess t
  | .CHANGE_CHOOSE_ACCOUNT => change_choose_field db sess t
  | .CHANGE_CHOOSE_FIELD => change_prompt_field_value db sess t
  | .CHANGE_PROMPT_FIELD_VALUE =>
    (change_save_field_value env db sess (.text t)).toHandlerResult
  | .CHANGE_SAVE_PERSON_NAME => fallbackText env .CHANGE_SAVE_PERSON_NAME db sess t
  | .CHANGE_SAVE_FIELD_VALUE => fallbackText env .CHANGE_SAVE_FIELD_VALUE db sess t
  | .END => { state := .END, sess := sess, db := db, msgs := [] }

end MainPy

namespace BotPy

/-! ## The access gate of src/bot.py

Schema (`init_db`, src/bot.py lines 29-60): `users(id SERIAL, telegram_id
BIGINT UNIQUE NOT NULL, full_name TEXT, is_admin BOOLEAN DEFAULT FALSE,
access_granted BOOLEAN DEFAULT FALSE)`.  The `SERIAL` surrogate id plays
no role in any handler and is omitted from the row model.
-/

structure BotUser where
  telegram_id : Int
  full_name : String
  is_admin : Bool
  access_granted : Bool
deriving DecidableEq, Repr

/-- `ensure_user` (src/bot.py lines 62-75): if no row with this
`telegram_id` exists, `INSERT INTO users (telegram_id, full_name,
is_admin) VALUES (...)` with `is_admin = (tid == ADMIN_ID)`;
`access_granted` is not supplied and takes its schema `DEFAULT FALSE`. -/
def ensure_user (adminId : Int) (users : List BotUser) (tid : Int) (name : String) :
    List BotUser :=
  if users.any (fun u => u.telegram_id == tid) then users
  else users ++ [⟨tid, name, tid == adminId, false⟩]

/-- The three ways `start` (src/bot.py lines 78-99) greets a known row:
the admin menu (`is_admin`), the approved person-selection prompt
(`access_granted`), or the "you have no access / your id is pending"
pair of replies. -/
inductive Gate
  | admin
  | approved
  | pending
deriving DecidableEq, Repr

/-- The classification `start` reads back after `ensure_user`
(src/bot.py lines 80-99): `is_admin` is checked before
`access_granted`. -/
def classify (users : List BotUser) (tid : Int) : Option Gate :=
  (users.find? (fun u => u.telegram_id == tid)).map (fun u =>
    if u.is_admin then Gate.admin
    else if u.access_granted then Gate.approved
    else Gate.pending)

/-- `start` (src/bot.py lines 78-99): `ensure_user` then classify. -/
def start (adminId : Int) (users : List BotUser) (tid : Int) (name : String) :
    List BotUser × Option Gate :=
  let users' := ensure_user adminId users tid name
  (users', classify users' tid)

/-- Everything a single chat id can trigger on src/bot.py by itself: the
`/start` command (the only `CommandHandler`) and the `admin_users`
callback (`admin_menu`, src/bot.py lines 101-118, which only reads). -/
inductive Interaction
  | start (name : String)
  | adminUsersCallback
deriving DecidableEq, Repr

/-- Effect of one interaction by chat id `tid` on the users table. -/
def stepInteraction (adminId : Int) (tid : Int) (users : List BotUser) :
    Interaction → List BotUser
  | .start name => (start adminId users tid name).1
  | .adminUsersCallback => users

/-- A whole sequence of interactions by the same chat id. -/
def runInteractions (adminId : Int) (tid : Int) (users : List BotUser)
    (seq : List Interaction) : List BotUser :=
  seq.foldl (stepInteraction adminId tid) users

end BotPy

/-! ## C2: the access gate -/

namespace BotPy

/-- Helper: one interaction by a non-admin chat id `c` keeps every row
with `telegram_id = c` unapproved and non-admin. -/
theorem gate_step_invariant (adminId c : Int) (hc : c ≠ adminId)
    (users : List BotUser)
    (h : ∀ u ∈ users, u.telegram_id = c →
      u.access_granted = false ∧ u.is_admin = false)
    (i : Interaction) :
    ∀ u ∈ stepInteraction adminId c users i, u.telegram_id = c →
      u.access_granted = false ∧ u.is_admin = false := by
  intro u hu htid
  cases i with
  | adminUsersCallback => exact h u hu htid
  | start name =>
    simp only [stepInteraction, start, ensure_user] at hu
    split at hu
    · exact h u hu htid
    · rcases List.mem_append.mp hu with h1 | h1
      · exact h u h1 htid
      · simp only [List.mem_singleton] at h1
        subst h1
        exact ⟨rfl, beq_eq_false_iff_ne.mpr hc⟩

/-- Helper: the invariant holds after any interaction sequence. -/
theorem gate_run_invariant (adminId c : Int) (hc : c ≠ adminId)
    (users : List BotUser)
    (h : ∀ u ∈ users, u.telegram_id = c →
      u.access_granted = false ∧ u.is_admin = false)
    (seq : List Interaction) :
    ∀ u ∈ runInteractions adminId c users seq, u.telegram_id = c →
      u.access_granted = false ∧ u.is_admin = false := by
  induction seq generalizing users with
  | nil => exact h
  | cons i is ih =>
    exact ih (stepInteraction adminId c users i) (gate_step_invariant adminId c hc users h i)

/-- Helper: a chat id all of whose rows are unapproved and non-admin is
never classified `approved`. -/
theorem classify_not_approved (users : List BotUser) (c : Int)
    (h : ∀ u ∈ users, u.telegram_id = c →
      u.access_granted = false ∧ u.is_admin = false) :
    classify users c ≠ some Gate.approved := by
  unfold classify
  cases hf : users.find? (fun u => u.telegram_id == c) with
  | none => simp
  | some u =>
    have hmem := List.mem_of_find?_eq_some hf
    have hpred := List.find?_some hf
    have htid : u.telegram_id = c := by simpa using hpred
    obtain ⟨hag, had⟩ := h u hmem htid
    simp [had, hag]

end BotPy

namespace MainPy

/-- C2 is false as stated on the gate of src/main.py: the first
interaction of the unknown non-admin chat id 42 creates no user row at
all — `start` refuses and ends the conversation — instead of creating a
row with access denied (a Pending state). -/
theorem C2_counterexample :
    let env : Env := ⟨true, 1, 42, "Bob", 7, true⟩
    let db : DB := { users := [⟨1, "Admin"⟩], persons := [], accounts := [] }
    (start env db {}).db.users = [⟨1, "Admin"⟩] ∧
    (start env db {}).db.users.find? (fun u => u.telegram_id == 42) = none ∧
    (start env db {}).state = ConvState.END ∧
    (start env db {}).msgs = [Msg.notAuthorized] := by decide

/-- C2 (amended): on src/bot.py's gate the claim holds — the first
interaction of an unknown non-admin chat id `c` creates exactly one row
for `c`, with `access_granted = false` and `is_admin = false`, classified
Pending; no interaction sequence by `c` alone ever classifies `c` as
Approved; and the configured admin id is classified Admin on first
contact.  On src/main.py's gate an unauthorized chat id is refused with
no row created, so there too `c` alone never reaches an authorized
state. -/
theorem C2_gate_amended
    (adminId c : Int) (name aname : String) (users : List BotPy.BotUser)
    (seq : List BotPy.Interaction) (menv : Env) (mdb : DB) (sess : Session)
    (hc : c ≠ adminId)
    (hnorow : ∀ u ∈ users, u.telegram_id ≠ c)
    (hadminfresh : ∀ u ∈ users, u.telegram_id ≠ adminId)
    (hmain : is_authorized menv mdb = false) :
    (BotPy.start adminId users c name).1 = users ++ [⟨c, name, false, false⟩] ∧
    (BotPy.start adminId users c name).2 = some BotPy.Gate.pending ∧
    BotPy.classify (BotPy.runInteractions adminId c users seq) c ≠
      some BotPy.Gate.approved ∧
    (BotPy.start adminId users adminId aname).2 = some BotPy.Gate.admin ∧
    (start menv mdb sess).db = mdb ∧
    (start menv mdb sess).state = ConvState.END := by
  have hany : users.any (fun u => u.telegram_id == c) = false := by
    simp only [List.any_eq_false]
    intro u hu
    simpa using hnorow u hu
  have hanyA : users.any (fun u => u.telegram_id == adminId) = false := by
    simp only [List.any_eq_false]
    intro u hu
    simpa using hadminfresh u hu
  have hfind : users.find? (fun u => u.telegram_id == c) = none := by
    apply List.find?_eq_none.mpr
    intro u hu
    simpa using hnorow u hu
  have hfindA : users.find? (fun u => u.telegram_id == adminId) = none := by
    apply List.find?_eq_none.mpr
    intro u hu
    simpa using hadminfresh u hu
  have hens : BotPy.ensure_user adminId users c name =
      users ++ [⟨c, name, false, false⟩] := by
    unfold BotPy.ensure_user
    rw [hany]
    simp [beq_eq_false_iff_ne.mpr hc]
  refine ⟨?_, ?_, ?_, ?_, ?_, ?_⟩
  · simpa [BotPy.start] using hens
  · simp only [BotPy.start, hens, BotPy.classify]
    rw [List.find?_append, hfind]
    simp
  · apply BotPy.classify_not_approved
    apply BotPy.gate_run_invariant adminId c hc users
    intro u hu htid
    exact absurd htid (hnorow u hu)
  · simp only [BotPy.start, BotPy.ensure_user, hanyA]
    simp only [if_neg Bool.false_ne_true, BotPy.classify]
    rw [List.find?_append, hfindA]
    simp
  · unfold start
    rw [hmain]
    simp
  · unfold start
    rw [hmain]
    simp

/-- Witness for `C2_gate_amended`: admin id 1, unknown chat id 42, a
three-interaction sequence, and the main.py gate refusing chat id 42. -/
theorem C2_gate_amended_witness :
    ((42 : Int) ≠ 1 ∧
     (∀ u ∈ ([] : List BotPy.BotUser), u.telegram_id ≠ 42) ∧
     (∀ u ∈ ([] : List BotPy.BotUser), u.telegram_id ≠ 1) ∧
     is_authorized ⟨true, 1, 42, "Bob", 7, true⟩
       { users := [⟨1, "Admin"⟩], persons := [], accounts := [] } = false) ∧
    ((BotPy.start 1 [] 42 "Bob").1 = [] ++ [⟨42, "Bob", false, false⟩] ∧
     (BotPy.start 1 [] 42 "Bob").2 = some BotPy.Gate.pending ∧
     BotPy.classify
       (BotPy.runInteractions 1 42 []
         [BotPy.Interaction.start "Bob", BotPy.Interaction.adminUsersCallback,
          BotPy.Interaction.start "Bob"]) 42 ≠ some BotPy.Gate.approved ∧
     (BotPy.start 1 [] 1 "Admin").2 = some BotPy.Gate.admin ∧
     (start ⟨true, 1, 42, "Bob", 7, true⟩
       { users := [⟨1, "Admin"⟩], persons := [], accounts := [] } {}).db =
       { users := [⟨1, "Admin"⟩], persons := [], accounts := [] } ∧
     (start ⟨true, 1, 42, "Bob", 7, true⟩
       { users := [⟨1, "Admin"⟩], persons := [], accounts := [] } {}).state =
       ConvState.END) :=
  ⟨⟨by decide, by decide, by decide, by decide⟩,
   C2_gate_amended 1 42 "Bob" "Admin" []
     [BotPy.Interaction.start "Bob", BotPy.Interaction.adminUsersCallback,
      BotPy.Interaction.start "Bob"]
     ⟨true, 1, 42, "Bob", 7, true⟩
     { users := [⟨1, "Admin"⟩], persons := [], accounts := [] } {}
     (by decide) (by decide) (by decide) (by decide)⟩

/-! ## C3: revoking the admin -/

/-- C3: the claim (and spec) say revoking the configured admin id is a
refused no-op with an explicit failure signal.  The code has no such
guard: with the admin row `(99, "Admin")` present, entering the text
`"Admin (99)"` in the remove-user state deletes the admin's own row and
reports success — even though the button list offered for this state
(`removeUserButtons`) never contains the admin.  This contradicts the
evident intent of `admin_prompt_remove_user`, which excludes the admin
from the offered choices. -/
theorem C3_admin_row_deletable :
    let env : Env := ⟨true, 99, 99, "Admin", 7, true⟩
    let db : DB := { users := [⟨99, "Admin"⟩, ⟨42, "Bob"⟩], persons := [], accounts := [] }
    (admin_remove_user env db {} "Admin (99)").db.users = [⟨42, "Bob"⟩] ∧
    Msg.userRemoved ∈ (admin_remove_user env db {} "Admin (99)").msgs ∧
    Msg.userNotFound ∉ (admin_remove_user env db {} "Admin (99)").msgs ∧
    removeUserButtons 99 db.users = ["Bob (42)"] := by decide

end MainPy

namespace MainPy

/-! ## C4 / C10 / C5 / C6: the field-edit save step and the capture states -/

/-- Helper: a single-column `SET` never touches `id` or `person_id`. -/
theorem setColumn_keeps_ids (b : Account) (c : String) (v : Option String) :
    ((setColumn b c v).getD b).id = b.id ∧
    ((setColumn b c v).getD b).person_id = b.person_id := by
  unfold setColumn
  split_ifs <;> simp

/-- Helper: reading back the column a `SET` wrote yields the new value. -/
theorem getColumn_setColumn_self (b : Account) (c : String) (v : Option String)
    (hc : c ∈ validColumns) :
    getColumn ((setColumn b c v).getD b) c = v := by
  fin_cases hc <;> simp [setColumn, getColumn]

set_option maxHeartbeats 1000000 in
/-- Helper: a single-column `SET` leaves every other column unchanged. -/
theorem getColumn_setColumn_ne (b : Account) (c c' : String) (v : Option String)
    (hc' : c' ∈ validColumns) (hne : c' ≠ c) :
    getColumn ((setColumn b c v).getD b) c' = getColumn b c' := by
  unfold setColumn
  split_ifs with h1 h2 h3 h4 h5 <;>
    fin_cases hc' <;>
    simp_all [getColumn]

/-- Helper: the column mapped to by any key of `FIELD_TO_COLUMN_MAP` is a
schema column. -/
theorem field_map_column_valid (f c : String) (hfc : (f, c) ∈ FIELD_TO_COLUMN_MAP) :
    c ∈ validColumns := by
  simp only [FIELD_TO_COLUMN_MAP, List.mem_cons, List.not_mem_nil, or_false,
    Prod.mk.injEq] at hfc
  rcases hfc with ⟨_, rfl⟩ | ⟨_, rfl⟩ | ⟨_, rfl⟩ | ⟨_, rfl⟩ | ⟨_, rfl⟩ <;> decide

/-- Helper: a successful `dict.get` returns one of the dictionary's
values. -/
theorem dictGet_mem_values (m : List (String × String)) (k v : String)
    (h : dictGet m k = some v) : v ∈ m.map Prod.snd := by
  unfold dictGet at h
  cases hf : m.find? (fun kv => kv.1 == k) with
  | none => rw [hf] at h; simp at h
  | some kv =>
    rw [hf] at h
    have h2 : kv.2 = v := by simpa using h
    exact h2 ▸ List.mem_map_of_mem Prod.snd (List.mem_of_find?_eq_some hf)

set_option maxHeartbeats 1000000 in
/-- Helper: the completed save step for field `f` (mapped column `c`) on
account id `aid` with a successfully captured value `v` executes exactly
the single-column UPDATE and returns to the edit menu. -/
theorem change_save_field_value_executes (env : Env) (db : DB) (sess : Session)
    (f c : String) (aid : Nat) (input : TgInput) (v : Option String)
    (hfc : (f, c) ∈ FIELD_TO_COLUMN_MAP)
    (hf : sess.change_field = some f)
    (ha : sess.change_account_id = some aid)
    (haid : aid ≠ 0)
    (hconn : env.connOk = true)
    (hval : capturedValue c input = some v) :
    change_save_field_value env db sess input =
      { state := .EDIT_MENU, sess := {},
        db := { db with accounts := db.accounts.map (editedRow c v aid) },
        msgs := [.fieldUpdated, .editMenuPrompt],
        executedUpdate := some (c, v, aid) } := by
  have haidb : (aid == 0) = false := beq_eq_false_iff_ne.mpr haid
  obtain ⟨pl, al, spi, spn, napi, na, ptd, atd, cp, caid, cf⟩ := sess
  simp only at hf ha
  subst hf ha
  simp only [FIELD_TO_COLUMN_MAP, List.mem_cons, List.not_mem_nil, or_false,
    Prod.mk.injEq] at hfc
  obtain ⟨rfl, rfl⟩ | ⟨rfl, rfl⟩ | ⟨rfl, rfl⟩ | ⟨rfl, rfl⟩ | ⟨rfl, rfl⟩ := hfc <;>
  · simp [change_save_field_value, haidb, hval, hconn, updateAccountsColumn,
      validColumns, withMsgs, edit_menu,
      show dictGet FIELD_TO_COLUMN_MAP FIELD_BANK_NAME = some "bank_name" from by decide,
      show dictGet FIELD_TO_COLUMN_MAP FIELD_ACCOUNT_NUMBER = some "account_number" from by decide,
      show dictGet FIELD_TO_COLUMN_MAP FIELD_CARD_NUMBER = some "card_number" from by decide,
      show dictGet FIELD_TO_COLUMN_MAP FIELD_SHABA_NUMBER = some "shaba_number" from by decide,
      show dictGet FIELD_TO_COLUMN_MAP FIELD_CARD_PHOTO = some "card_photo_id" from by decide,
      show (FIELD_BANK_NAME == "") = false from by decide,
      show (FIELD_ACCOUNT_NUMBER == "") = false from by decide,
      show (FIELD_CARD_NUMBER == "") = false from by decide,
      show (FIELD_SHABA_NUMBER == "") = false from by decide,
      show (FIELD_CARD_PHOTO == "") = false from by decide]

/-- C4: completing the Edit-Account flow that sets field `f` (with
mapped column `c`) of the account with id `aid` to the captured value
`v` updates exactly that column of exactly that row: the persons and
users tables are untouched, the accounts table is a pointwise map that
is the identity on every row whose id is not `aid`, and the updated row
keeps its `id`, `person_id` and all other schema columns byte-identical,
with column `c` now holding `v`. -/
theorem C4_edit_single_field_frame (env : Env) (db : DB) (sess : Session)
    (f c : String) (aid : Nat) (input : TgInput) (v : Option String)
    (hfc : (f, c) ∈ FIELD_TO_COLUMN_MAP)
    (hf : sess.change_field = some f)
    (ha : sess.change_account_id = some aid)
    (haid : aid ≠ 0)
    (hconn : env.connOk = true)
    (hval : capturedValue c input = some v) :
    (change_save_field_value env db sess input).executedUpdate = some (c, v, aid) ∧
    (change_save_field_value env db sess input).db.persons = db.persons ∧
    (change_save_field_value env db sess input).db.users = db.users ∧
    (change_save_field_value env db sess input).db.accounts =
      db.accounts.map (editedRow c v aid) ∧
    (∀ b : Account, b.id ≠ aid → editedRow c v aid b = b) ∧
    (∀ b : Account, (editedRow c v aid b).id = b.id ∧
      (editedRow c v aid b).person_id = b.person_id) ∧
    (∀ b : Account, b.id = aid → getColumn (editedRow c v aid b) c = v) ∧
    (∀ b : Account, ∀ c' ∈ validColumns, c' ≠ c →
      getColumn (editedRow c v aid b) c' = getColumn b c') := by
  have hex := change_save_field_value_executes env db sess f c aid input v
    hfc hf ha haid hconn hval
  have hcv : c ∈ validColumns := field_map_column_valid f c hfc
  refine ⟨by rw [hex], by rw [hex], by rw [hex], by rw [hex], ?_, ?_, ?_, ?_⟩
  · intro b hb
    simp [editedRow, beq_eq_false_iff_ne.mpr hb]
  · intro b
    unfold editedRow
    split
    · exact setColumn_keeps_ids b c v
    · exact ⟨rfl, rfl⟩
  · intro b hb
    have hbt : (b.id == aid) = true := beq_iff_eq.mpr hb
    unfold editedRow
    rw [hbt]
    simpa using getColumn_setColumn_self b c v hcv
  · intro b c' hc' hne
    unfold editedRow
    split
    · exact getColumn_setColumn_ne b c c' v hc' hne
    · rfl

def envC4 : Env := ⟨true, 1, 1, "A", 9, true⟩

def sessC4 : Session := { change_field := some FIELD_CARD_NUMBER, change_account_id := some 2 }

theorem C4_edit_single_field_frame_witness :
    ((FIELD_CARD_NUMBER, "card_number") ∈ FIELD_TO_COLUMN_MAP ∧
     sessC4.change_field = some FIELD_CARD_NUMBER ∧
     sessC4.change_account_id = some 2 ∧
     (2 : Nat) ≠ 0 ∧
     envC4.connOk = true ∧
     capturedValue "card_number" (TgInput.text "9999") = some (some "9999")) ∧
    ((change_save_field_value envC4 dbC1 sessC4 (TgInput.text "9999")).executedUpdate =
       some ("card_number", some "9999", 2) ∧
     (change_save_field_value envC4 dbC1 sessC4 (TgInput.text "9999")).db.persons =
       dbC1.persons ∧
     (change_save_field_value envC4 dbC1 sessC4 (TgInput.text "9999")).db.users =
       dbC1.users ∧
     (change_save_field_value envC4 dbC1 sessC4 (TgInput.text "9999")).db.accounts =
       dbC1.accounts.map (editedRow "card_number" (some "9999") 2) ∧
     (∀ b : Account, b.id ≠ 2 → editedRow "card_number" (some "9999") 2 b = b) ∧
     (∀ b : Account, (editedRow "card_number" (some "9999") 2 b).id = b.id ∧
       (editedRow "card_number" (some "9999") 2 b).person_id = b.person_id) ∧
     (∀ b : Account, b.id = 2 →
       getColumn (editedRow "card_number" (some "9999") 2 b) "card_number" =
         some "9999") ∧
     (∀ b : Account, ∀ c' ∈ validColumns, c' ≠ "card_number" →
       getColumn (editedRow "card_number" (some "9999") 2 b) c' = getColumn b c')) :=
  ⟨⟨by decide, by decide, by decide, by decide, by decide, by decide⟩,
   C4_edit_single_field_frame envC4 dbC1 sessC4 FIELD_CARD_NUMBER "card_number" 2
     (TgInput.text "9999") (some "9999")
     (by decide) (by decide) (by decide) (by decide) (by decide) (by decide)⟩

/-- C10: in every execution of the field-edit save step that actually
interpolates a column name into the `UPDATE` statement, that name is one
of the five values of `FIELD_TO_COLUMN_MAP` (a schema column) — whatever
the session contains — because the only column the step uses is the one
`FIELD_TO_COLUMN_MAP.get` returns under the `all([...])` guard; and the
preceding prompt step only ever stores a field name after checking it is
a key of that closed map. -/
theorem C10_update_column_closed (env : Env) (db : DB) (sess : Session)
    (input : TgInput) (c : String) (v : Option String) (aid : Nat)
    (hex : (change_save_field_value env db sess input).executedUpdate =
      some (c, v, aid)) :
    c ∈ FIELD_TO_COLUMN_MAP.map Prod.snd ∧
    c ∈ validColumns ∧
    (∀ t : String, ∀ s' : Session, ∀ db' : DB,
      (change_prompt_field_value db' s' t).sess.change_field ≠ s'.change_field →
      t ∈ FIELD_TO_COLUMN_MAP.map Prod.fst) := by
  have hmem : c ∈ FIELD_TO_COLUMN_MAP.map Prod.snd := by
    obtain ⟨pl, al, spi, spn, napi, na, ptd, atd, cp, caid, cf⟩ := sess
    cases cf with
    | none => simp [change_save_field_value] at hex
    | some f =>
      cases caid with
      | none => simp [change_save_field_value] at hex
      | some aid0 =>
        by_cases hg : (f == "" || aid0 == 0) = true
        · simp [change_save_field_value, hg] at hex
        · cases hd : dictGet FIELD_TO_COLUMN_MAP f with
          | none => simp [change_save_field_value, hg, hd] at hex
          | some col =>
            cases hcv : capturedValue col input with
            | none => simp [change_save_field_value, hg, hd, hcv] at hex
            | some v0 =>
              cases hcon : env.connOk with
              | false => simp [change_save_field_value, hg, hd, hcv, hcon] at hex
              | true =>
                cases hup : updateAccountsColumn db col v0 aid0 with
                | none =>
                  simp [change_save_field_value, hg, hd, hcv, hcon, hup] at hex
                  obtain ⟨rfl, rfl, rfl⟩ := hex
                  exact dictGet_mem_values FIELD_TO_COLUMN_MAP f col hd
                | some db2 =>
                  simp [change_save_field_value, hg, hd, hcv, hcon, hup] at hex
                  obtain ⟨rfl, rfl, rfl⟩ := hex
                  exact dictGet_mem_values FIELD_TO_COLUMN_MAP f col hd
  refine ⟨hmem, ?_, ?_⟩
  · have : FIELD_TO_COLUMN_MAP.map Prod.snd = validColumns := by decide
    rwa [this] at hmem
  · intro t s' db' hchanged
    unfold change_prompt_field_value at hchanged
    split at hchanged
    · simp at hchanged
    · rename_i hany
      rw [Decidable.not_not] at hany
      obtain ⟨kv, hkv, hkvt⟩ := List.any_eq_true.mp hany
      obtain rfl : kv.1 = t := by simpa using hkvt
      exact List.mem_map_of_mem Prod.fst hkv

def sessC10 : Session := { change_field := some FIELD_CARD_NUMBER, change_account_id := some 1 }

theorem C10_update_column_closed_witness :
    ((change_save_field_value envC4 dbC1 sessC10 (TgInput.text "x")).executedUpdate =
       some ("card_number", some "x", 1)) ∧
    ("card_number" ∈ FIELD_TO_COLUMN_MAP.map Prod.snd ∧
     "card_number" ∈ validColumns ∧
     (∀ t : String, ∀ s' : Session, ∀ db' : DB,
       (change_prompt_field_value db' s' t).sess.change_field ≠ s'.change_field →
       t ∈ FIELD_TO_COLUMN_MAP.map Prod.fst)) :=
  ⟨by decide,
   C10_update_column_closed envC4 dbC1 sessC10 (TgInput.text "x")
     "card_number" (some "x") 1 (by decide)⟩

end MainPy

namespace MainPy

/-! ## C5: IBAN storage -/

def dbC5 : DB := { persons := [⟨1, "Alice"⟩], accounts := [] }

def envC5 : Env := ⟨true, 1, 1, "A", 9, true⟩

/-- The session after picking person 1 in the add flow and typing the
bare digits "123" at the IBAN step. -/
def sessC5 : Session :=
  (add_account_get_shaba dbC5
    { new_account_person_id := some 1, new_account := some {} } "123").sess

/-- The database after completing the add flow (photo skipped): the new
account got `SERIAL` id 9. -/
def dbC5saved : DB :=
  (add_account_get_photo_and_save envC5 dbC5 sessC5 (TgInput.text SKIP_BUTTON)).db

/-- The session of the edit flow positioned on the IBAN field of
account 9. -/
def sessC5edit : Session :=
  { change_field := some FIELD_SHABA_NUMBER, change_account_id := some 9 }

/-- C5 is false as stated: the code performs no "IR" canonicalization at
any boundary.  Entering the bare digits "123" in the add flow stores
exactly "123" (not "IR123"), and then editing the IBAN field to the
literal "IR123" stores exactly "IR123" — the two stored values differ,
refuting that both writes yield the same canonical stored value. -/
theorem C5_counterexample :
    (findAccount dbC5saved 9).map Account.shaba_number = some (some "123") ∧
    (findAccount
        (change_save_field_value envC5 dbC5saved sessC5edit (TgInput.text "IR123")).db
        9).map Account.shaba_number = some (some "IR123") ∧
    (some "123" : Option String) ≠ some "IR123" ∧
    (some "123" : Option String) ≠ some ("IR" ++ "123") := by decide

/-- C5 (amended): IBAN values are stored exactly as entered, at both the
add-flow capture and the edit-flow `SET` — no "IR" prefix is ever added
(the add-flow prompt asks for the number without "IR"); consequently no
"IRIR" duplication can occur, but storing bare digits and then editing
to the "IR"-prefixed literal yields two different stored values. -/
theorem C5_amended_shaba_verbatim (db : DB) (sess : Session) (t : String)
    (a : Account) (v : Option String) :
    ((add_account_get_shaba db sess t).sess.new_account.getD {}).shaba_number =
      (if t = SKIP_BUTTON then none else some t) ∧
    (capturedValue "shaba_number" (TgInput.text t) =
      if t = SKIP_BUTTON then some none
      else if t = "" then none else some (some t)) ∧
    setColumn a "shaba_number" v = some { a with shaba_number := v } := by
  refine ⟨?_, ?_, ?_⟩
  · by_cases ht : t = SKIP_BUTTON <;>
      simp [add_account_get_shaba, skipOr, ht]
  · by_cases ht : t = SKIP_BUTTON
    · simp [capturedValue, TgInput.asText, ht]
    · by_cases ht0 : t = "" <;>
        simp [capturedValue, TgInput.asText, ht, ht0]
  · simp [setColumn]

/-! ## C6: validation in the capture states -/

def dbC6 : DB := { persons := [], accounts := [] }

/-- C6 is false as stated: the card-number capture state accepts the
non-digit text "abc" — it stores it verbatim in the in-progress buffer
and advances to the IBAN step instead of rejecting it and re-prompting. -/
theorem C6_counterexample :
    ((add_account_get_card dbC6 {} "abc").sess.new_account.getD {}).card_number =
      some "abc" ∧
    (add_account_get_card dbC6 {} "abc").state = ConvState.ADD_ACCOUNT_SHABA ∧
    (add_account_get_card dbC6 {} "abc").state ≠ ConvState.ADD_ACCOUNT_CARD := by decide

/-- C6 (amended): the free-text capture states apply no shape validation
at all — any text other than the skip token is stored verbatim — while
the skip token is indeed the only text input that stores null; the photo
states are the only ones that reject input (non-photo, non-skip input
re-prompts without storing). -/
theorem C6_amended_no_validation (env : Env) (db : DB) (sess : Session)
    (t fid : String) :
    ((add_account_get_bank db sess t).sess.new_account.getD {}).bank_name = skipOr t ∧
    ((add_account_get_number db sess t).sess.new_account.getD {}).account_number =
      skipOr t ∧
    ((add_account_get_card db sess t).sess.new_account.getD {}).card_number = skipOr t ∧
    ((add_account_get_shaba db sess t).sess.new_account.getD {}).shaba_number =
      skipOr t ∧
    (skipOr t = none ↔ t = SKIP_BUTTON) ∧
    (capturedValue "card_number" (TgInput.text t) =
      if t = SKIP_BUTTON then some none
      else if t = "" then none else some (some t)) ∧
    (capturedValue "card_photo_id" (TgInput.text t) =
      if t = SKIP_BUTTON then some none else none) ∧
    capturedValue "card_photo_id" (TgInput.photo fid) = some (some fid) ∧
    (t = SKIP_BUTTON ∨
      ((add_account_get_photo_and_save env db sess (TgInput.text t)).state =
          ConvState.ADD_ACCOUNT_PHOTO ∧
        (add_account_get_photo_and_save env db sess (TgInput.text t)).sess = sess ∧
        (add_account_get_photo_and_save env db sess (TgInput.text t)).db = db)) := by
  refine ⟨?_, ?_, ?_, ?_, ?_, ?_, ?_, ?_, ?_⟩
  · simp [add_account_get_bank]
  · simp [add_account_get_number]
  · simp [add_account_get_card]
  · simp [add_account_get_shaba]
  · by_cases ht : t = SKIP_BUTTON <;> simp [skipOr, ht]
  · by_cases ht : t = SKIP_BUTTON
    · simp [capturedValue, TgInput.asText, ht]
    · by_cases ht0 : t = "" <;>
        simp [capturedValue, TgInput.asText, ht, ht0]
  · by_cases ht : t = SKIP_BUTTON <;>
      simp [capturedValue, TgInput.asText, ht]
  · simp [capturedValue, TgInput.asText,
      show ("card_photo_id" == "card_photo_id") = true from by decide]
  · by_cases ht : t = SKIP_BUTTON
    · exact Or.inl ht
    · exact Or.inr (by simp [add_account_get_photo_and_save, ht])

end MainPy

namespace MainPy

/-! ## C7: duplicate person names -/

/-- C7: attempting to create a Person whose stripped name already has
exactly one row in the persons table yields the dedicated
"person with this name exists" reply — a distinguishable outcome, not the
generic failure reply — the flow stays in the name-entry state for a
retry, nothing in the database changes, and the persons table still
holds exactly one row with that name. -/
theorem C7_duplicate_person (env : Env) (db : DB) (sess : Session) (t : String)
    (hconn : env.connOk = true)
    (hname : pyStrip t ≠ "")
    (hdup : (db.persons.filter (fun p => p.name == pyStrip t)).length = 1) :
    (add_save_new_person_and_prompt_bank env db sess t).msgs = [Msg.personExists] ∧
    (add_save_new_person_and_prompt_bank env db sess t).state =
      ConvState.ADD_NEW_PERSON_NAME ∧
    (add_save_new_person_and_prompt_bank env db sess t).db = db ∧
    (add_save_new_person_and_prompt_bank env db sess t).sess = sess ∧
    ((add_save_new_person_and_prompt_bank env db sess t).db.persons.filter
        (fun p => p.name == pyStrip t)).length = 1 ∧
    Msg.personAddError ∉ (add_save_new_person_and_prompt_bank env db sess t).msgs ∧
    Msg.personAdded ∉ (add_save_new_person_and_prompt_bank env db sess t).msgs := by
  have hnil : db.persons.filter (fun p => p.name == pyStrip t) ≠ [] := by
    intro h
    rw [h] at hdup
    simp at hdup
  obtain ⟨p, hp⟩ := List.exists_mem_of_ne_nil _ hnil
  rcases List.mem_filter.mp hp with ⟨hp1, hp2⟩
  have hany : db.persons.any (fun p => p.name == pyStrip t) = true :=
    List.any_eq_true.mpr ⟨p, hp1, hp2⟩
  have hnb : (pyStrip t == "") = false := beq_eq_false_iff_ne.mpr hname
  refine ⟨?_, ?_, ?_, ?_, ?_, ?_, ?_⟩ <;>
    simp [add_save_new_person_and_prompt_bank, insertPerson, hnb, hconn, hany, hdup]

def envC7 : Env := ⟨true, 1, 1, "A", 1, true⟩

/-- The database after successfully adding the person "Alice" once
(starting from an empty table). -/
def dbC7 : DB :=
  (add_save_new_person_and_prompt_bank envC7
    { persons := [], accounts := [] } {} "Alice").db

theorem C7_duplicate_person_witness :
    (envC7.connOk = true ∧ pyStrip "Alice" ≠ "" ∧
     (dbC7.persons.filter (fun p => p.name == pyStrip "Alice")).length = 1) ∧
    ((add_save_new_person_and_prompt_bank envC7 dbC7 {} "Alice").msgs =
       [Msg.personExists] ∧
     (add_save_new_person_and_prompt_bank envC7 dbC7 {} "Alice").state =
       ConvState.ADD_NEW_PERSON_NAME ∧
     (add_save_new_person_and_prompt_bank envC7 dbC7 {} "Alice").db = dbC7 ∧
     (add_save_new_person_and_prompt_bank envC7 dbC7 {} "Alice").sess = {} ∧
     ((add_save_new_person_and_prompt_bank envC7 dbC7 {} "Alice").db.persons.filter
         (fun p => p.name == pyStrip "Alice")).length = 1 ∧
     Msg.personAddError ∉
       (add_save_new_person_and_prompt_bank envC7 dbC7 {} "Alice").msgs ∧
     Msg.personAdded ∉
       (add_save_new_person_and_prompt_bank envC7 dbC7 {} "Alice").msgs) :=
  ⟨⟨by decide, by decide, by decide⟩,
   C7_duplicate_person envC7 dbC7 {} "Alice" (by decide) (by decide) (by decide)⟩

/-! ## C9: persistence connectivity failures -/

/-- Helper: looking up a key of `FIELD_TO_COLUMN_MAP` succeeds with its
column. -/
theorem dictGet_field_map (f c : String) (hfc : (f, c) ∈ FIELD_TO_COLUMN_MAP) :
    dictGet FIELD_TO_COLUMN_MAP f = some c := by
  simp only [FIELD_TO_COLUMN_MAP, List.mem_cons, List.not_mem_nil, or_false,
    Prod.mk.injEq] at hfc
  rcases hfc with ⟨rfl, rfl⟩ | ⟨rfl, rfl⟩ | ⟨rfl, rfl⟩ | ⟨rfl, rfl⟩ | ⟨rfl, rfl⟩ <;> decide

/-- Helper: no key of `FIELD_TO_COLUMN_MAP` is the empty string. -/
theorem field_map_key_nonempty (f c : String) (hfc : (f, c) ∈ FIELD_TO_COLUMN_MAP) :
    (f == "") = false := by
  simp only [FIELD_TO_COLUMN_MAP, List.mem_cons, List.not_mem_nil, or_false,
    Prod.mk.injEq] at hfc
  rcases hfc with ⟨rfl, rfl⟩ | ⟨rfl, rfl⟩ | ⟨rfl, rfl⟩ | ⟨rfl, rfl⟩ | ⟨rfl, rfl⟩ <;> decide

def envC9 : Env := ⟨false, 1, 1, "A", 9, true⟩

def sessC9 : Session :=
  { change_person := some (1, "Alice"), new_account_person_id := some 1,
    new_account := some {}, change_field := some FIELD_CARD_NUMBER,
    change_account_id := some 1 }

/-- C9 is false as stated at the cited sites: when no database
connection can be obtained during the rename save step, the user
receives no "service unavailable" reply — only the edit-menu prompt —
and the per-conversation session data is cleared (the in-progress
selection is lost) instead of being preserved for a retry.  The
operation does perform no write. -/
theorem C9_counterexample :
    (change_save_person_name envC9 dbC5 sessC9 "Bobby").msgs = [Msg.editMenuPrompt] ∧
    Msg.dbConnectionError ∉ (change_save_person_name envC9 dbC5 sessC9 "Bobby").msgs ∧
    (change_save_person_name envC9 dbC5 sessC9 "Bobby").sess = ({} : Session) ∧
    (change_save_person_name envC9 dbC5 sessC9 "Bobby").sess ≠ sessC9 ∧
    (change_save_person_name envC9 dbC5 sessC9 "Bobby").db = dbC5 := by decide

/-- C9 (amended): on a connection failure no handler writes anything,
but the three cited save handlers silently return to the edit menu —
sending only the edit-menu prompt, no database-error reply — and the
edit menu clears the whole session instead of preserving it; by
contrast `admin_view_users` does reply with the dedicated
database-connection-error message and leaves the session alone. -/
theorem C9_conn_failure_behavior (env : Env) (db : DB) (sess : Session)
    (t f c : String) (aid pid : Nat) (v : Option String) (input : TgInput)
    (fid : String) (pinfo : Nat × String)
    (hconn : env.connOk = false)
    (hcp : sess.change_person = some pinfo)
    (hname : pyStrip t ≠ "")
    (hnapi : sess.new_account_person_id = some pid)
    (hpid : pid ≠ 0)
    (hfc : (f, c) ∈ FIELD_TO_COLUMN_MAP)
    (hf : sess.change_field = some f)
    (ha : sess.change_account_id = some aid)
    (haid : aid ≠ 0)
    (hval : capturedValue c input = some v) :
    ((change_save_person_name env db sess t).db = db ∧
     (change_save_person_name env db sess t).sess = {} ∧
     (change_save_person_name env db sess t).msgs = [Msg.editMenuPrompt]) ∧
    ((add_account_get_photo_and_save env db sess (TgInput.photo fid)).db = db ∧
     (add_account_get_photo_and_save env db sess (TgInput.photo fid)).sess = {} ∧
     (add_account_get_photo_and_save env db sess (TgInput.photo fid)).msgs =
       [Msg.editMenuPrompt]) ∧
    ((change_save_field_value env db sess input).db = db ∧
     (change_save_field_value env db sess input).sess = {} ∧
     (change_save_field_value env db sess input).msgs = [Msg.editMenuPrompt] ∧
     (change_save_field_value env db sess input).executedUpdate = none) ∧
    ((admin_view_users env db sess).db = db ∧
     (admin_view_users env db sess).sess = sess ∧
     (admin_view_users env db sess).msgs = [Msg.dbConnectionError]) := by
  have hnb : (pyStrip t == "") = false := beq_eq_false_iff_ne.mpr hname
  have hpb : (pid == 0) = false := beq_eq_false_iff_ne.mpr hpid
  have hab : (aid == 0) = false := beq_eq_false_iff_ne.mpr haid
  have hfb : (f == "") = false := field_map_key_nonempty f c hfc
  have hd : dictGet FIELD_TO_COLUMN_MAP f = some c := dictGet_field_map f c hfc
  obtain ⟨pl, al, spi, spn, napi, na, ptd, atd, cp, caid, cf⟩ := sess
  simp only at hcp hnapi hf ha
  subst hcp hnapi hf ha
  refine ⟨⟨?_, ?_, ?_⟩, ⟨?_, ?_, ?_⟩, ⟨?_, ?_, ?_, ?_⟩, ⟨?_, ?_, ?_⟩⟩ <;>
    simp [change_save_person_name, add_account_get_photo_and_save,
      change_save_field_value, admin_view_users, edit_menu, hnb, hpb, hab,
      hfb, hd, hval, hconn]

theorem C9_conn_failure_behavior_witness :
    (envC9.connOk = false ∧
     sessC9.change_person = some (1, "Alice") ∧
     pyStrip "Bobby" ≠ "" ∧
     sessC9.new_account_person_id = some 1 ∧
     (1 : Nat) ≠ 0 ∧
     (FIELD_CARD_NUMBER, "card_number") ∈ FIELD_TO_COLUMN_MAP ∧
     sessC9.change_field = some FIELD_CARD_NUMBER ∧
     sessC9.change_account_id = some 1 ∧
     capturedValue "card_number" (TgInput.text "x") = some (some "x")) ∧
    (((change_save_person_name envC9 dbC5 sessC9 "Bobby").db = dbC5 ∧
      (change_save_person_name envC9 dbC5 sessC9 "Bobby").sess = {} ∧
      (change_save_person_name envC9 dbC5 sessC9 "Bobby").msgs =
        [Msg.editMenuPrompt]) ∧
     ((add_account_get_photo_and_save envC9 dbC5 sessC9 (TgInput.photo "F")).db =
        dbC5 ∧
      (add_account_get_photo_and_save envC9 dbC5 sessC9 (TgInput.photo "F")).sess =
        {} ∧
      (add_account_get_photo_and_save envC9 dbC5 sessC9 (TgInput.photo "F")).msgs =
        [Msg.editMenuPrompt]) ∧
     ((change_save_field_value envC9 dbC5 sessC9 (TgInput.text "x")).db = dbC5 ∧
      (change_save_field_value envC9 dbC5 sessC9 (TgInput.text "x")).sess = {} ∧
      (change_save_field_value envC9 dbC5 sessC9 (TgInput.text "x")).msgs =
        [Msg.editMenuPrompt] ∧
      (change_save_field_value envC9 dbC5 sessC9 (TgInput.text "x")).executedUpdate =
        none) ∧
     ((admin_view_users envC9 dbC5 sessC9).db = dbC5 ∧
      (admin_view_users envC9 dbC5 sessC9).sess = sessC9 ∧
      (admin_view_users envC9 dbC5 sessC9).msgs = [Msg.dbConnectionError])) :=
  ⟨⟨by decide, by decide, by decide, by decide, by decide, by decide, by decide,
    by decide, by decide⟩,
   C9_conn_failure_behavior envC9 dbC5 sessC9 "Bobby" FIELD_CARD_NUMBER
     "card_number" 1 1 (some "x") (TgInput.text "x") "F" (1, "Alice")
     (by decide) (by decide) (by decide) (by decide) (by decide) (by decide)
     (by decide) (by decide) (by decide) (by decide)⟩

end MainPy

namespace MainPy

/-! ## C8: behavior of unmatched input -/

def envC8 : Env := ⟨true, 1, 1, "A", 5, true⟩

def dbC8 : DB := { users := [⟨1, "A"⟩], persons := [], accounts := [] }

/-- C8 is false as stated: in the ADMIN_MENU state the input "xyz"
matches none of the state's three buttons, yet the conversation does not
re-render ADMIN_MENU — the update falls through to the catch-all
fallback `start` and the conversation resets to MAIN_MENU. -/
theorem C8_counterexample :
    (stepText envC8 ConvState.ADMIN_MENU dbC8 {} "xyz").state =
      ConvState.MAIN_MENU ∧
    ConvState.MAIN_MENU ≠ ConvState.ADMIN_MENU := by decide

/-- C8 (amended): input that matches no expected option never silently
advances an in-progress flow, but the treatment differs by state kind.
In every free-text selection state an unrecognized selection re-renders
the same state (a self-loop; `ADD_CHOOSE_EXISTING_PERSON` does so without
a message).  In every fixed-button menu state, text matching no button
falls through to the catch-all fallback `start` and resets the
conversation to MAIN_MENU instead of re-rendering the state. -/
theorem C8_unmatched_input (env : Env) (db : DB) (sess : Session) (t : String)
    (henv : is_authorized env db = true)
    (hthome : t ≠ HOME_BUTTON)
    (htback : t ≠ BACK_BUTTON)
    (hP : dictLookupNat sess.persons_list t = none)
    (hA : dictLookupNat sess.accounts_list t = none)
    (hF : t ∉ FIELD_TO_COLUMN_MAP.map Prod.fst)
    (hbtn : t ∉ [BTN_VIEW_INFO, BTN_EDIT, BTN_ADMIN, BTN_VIEW_USERS, BTN_ADD_USER,
      BTN_REMOVE_USER, BTN_ADD, BTN_CHANGE, BTN_DELETE, BTN_NEW_PERSON,
      BTN_EXISTING_PERSON, BTN_DELETE_PERSON, BTN_DELETE_ACCOUNT, BTN_CONFIRM_YES,
      BTN_CONFIRM_NO, BTN_CHANGE_PERSON_NAME, BTN_EDIT_ACCOUNT]) :
    (stepText env ConvState.VIEW_CHOOSE_PERSON db sess t).state =
      ConvState.VIEW_CHOOSE_PERSON ∧
    (stepText env ConvState.VIEW_CHOOSE_ACCOUNT db sess t).state =
      ConvState.VIEW_CHOOSE_ACCOUNT ∧
    (stepText env ConvState.ADD_CHOOSE_EXISTING_PERSON db sess t).state =
      ConvState.ADD_CHOOSE_EXISTING_PERSON ∧
    (stepText env ConvState.DELETE_CHOOSE_PERSON db sess t).state =
      ConvState.DELETE_CHOOSE_PERSON ∧
    (stepText env ConvState.DELETE_CHOOSE_ACCOUNT_FOR_PERSON db sess t).state =
      ConvState.DELETE_CHOOSE_ACCOUNT_FOR_PERSON ∧
    (stepText env ConvState.DELETE_CHOOSE_ACCOUNT db sess t).state =
      ConvState.DELETE_CHOOSE_ACCOUNT ∧
    (stepText env ConvState.CHANGE_CHOOSE_PERSON db sess t).state =
      ConvState.CHANGE_CHOOSE_PERSON ∧
    (stepText env ConvState.CHANGE_CHOOSE_ACCOUNT db sess t).state =
      ConvState.CHANGE_CHOOSE_ACCOUNT ∧
    (stepText env ConvState.CHANGE_CHOOSE_FIELD db sess t).state =
      ConvState.CHANGE_CHOOSE_FIELD ∧
    (stepText env ConvState.MAIN_MENU db sess t).state = ConvState.MAIN_MENU ∧
    (stepText env ConvState.ADMIN_MENU db sess t).state = ConvState.MAIN_MENU ∧
    (stepText env ConvState.EDIT_MENU db sess t).state = ConvState.MAIN_MENU ∧
    (stepText env ConvState.ADD_CHOOSE_PERSON_TYPE db sess t).state =
      ConvState.MAIN_MENU ∧
    (stepText env ConvState.DELETE_CHOOSE_TYPE db sess t).state =
      ConvState.MAIN_MENU ∧
    (stepText env ConvState.DELETE_CONFIRM_PERSON db sess t).state =
      ConvState.MAIN_MENU ∧
    (stepText env ConvState.DELETE_CONFIRM_ACCOUNT db sess t).state =
      ConvState.MAIN_MENU ∧
    (stepText env ConvState.CHANGE_CHOOSE_TARGET db sess t).state =
      ConvState.MAIN_MENU := by
  simp only [List.mem_cons, List.not_mem_nil, or_false, not_or] at hbtn
  obtain ⟨h1, h2, h3, h4, h5, h6, h7, h8, h9, h10, h11, h12, h13, h14, h15, h16,
    h17⟩ := hbtn
  have hanyF : FIELD_TO_COLUMN_MAP.any (fun kv => kv.1 == t) = false := by
    simp only [List.any_eq_false]
    intro kv hkv hkvt
    exact hF (by
      have : kv.1 = t := by simpa using hkvt
      exact this ▸ List.mem_map_of_mem Prod.fst hkv)
  have hb := fun (s : String) (h : t ≠ s) => beq_eq_false_iff_ne.mpr h
  refine ⟨?_, ?_, ?_, ?_, ?_, ?_, ?_, ?_, ?_, ?_, ?_, ?_, ?_, ?_, ?_, ?_, ?_⟩
  · simp [stepText, view_choose_account, hP]
  · simp [stepText, view_display_account_details, hA]
  · simp [stepText, add_set_existing_person_and_prompt_bank, hP]
  · simp [stepText, delete_confirm_person, hP]
  · simp [stepText, delete_choose_account, hP]
  · simp [stepText, delete_confirm_account, hA]
  · simp [stepText, change_choose_target, hP]
  · simp [stepText, change_choose_field, hA]
  · simp [stepText, change_prompt_field_value, hanyF]
  · simp [stepText, fallbackText, main_menu, start, henv, hb _ h1, hb _ h2,
      hb _ h3, hb _ hthome, hb _ htback]
  · simp [stepText, fallbackText, main_menu, start, henv, hb _ h4, hb _ h5,
      hb _ h6, hb _ hthome, hb _ htback]
  · simp [stepText, fallbackText, main_menu, start, henv, hb _ h7, hb _ h8,
      hb _ h9, hb _ hthome, hb _ htback]
  · simp [stepText, fallbackText, main_menu, start, henv, hb _ h10, hb _ h11,
      hb _ hthome, hb _ htback]
  · simp [stepText, fallbackText, main_menu, start, henv, hb _ h12, hb _ h13,
      hb _ hthome, hb _ htback]
  · simp [stepText, fallbackText, main_menu, start, henv, hb _ h14, hb _ h15,
      hb _ hthome, hb _ htback]
  · simp [stepText, fallbackText, main_menu, start, henv, hb _ h14, hb _ h15,
      hb _ hthome, hb _ htback]
  · simp [stepText, fallbackText, main_menu, start, henv, hb _ h16, hb _ h17,
      hb _ hthome, hb _ htback]

theorem C8_unmatched_input_witness :
    (is_authorized envC8 dbC8 = true ∧
     "zzz" ≠ HOME_BUTTON ∧
     "zzz" ≠ BACK_BUTTON ∧
     dictLookupNat (({} : Session)).persons_list "zzz" = none ∧
     dictLookupNat (({} : Session)).accounts_list "zzz" = none ∧
     "zzz" ∉ FIELD_TO_COLUMN_MAP.map Prod.fst ∧
     "zzz" ∉ [BTN_VIEW_INFO, BTN_EDIT, BTN_ADMIN, BTN_VIEW_USERS, BTN_ADD_USER,
       BTN_REMOVE_USER, BTN_ADD, BTN_CHANGE, BTN_DELETE, BTN_NEW_PERSON,
       BTN_EXISTING_PERSON, BTN_DELETE_PERSON, BTN_DELETE_ACCOUNT, BTN_CONFIRM_YES,
       BTN_CONFIRM_NO, BTN_CHANGE_PERSON_NAME, BTN_EDIT_ACCOUNT]) ∧
    ((stepText envC8 ConvState.VIEW_CHOOSE_PERSON dbC8 {} "zzz").state =
       ConvState.VIEW_CHOOSE_PERSON ∧
     (stepText envC8 ConvState.VIEW_CHOOSE_ACCOUNT dbC8 {} "zzz").state =
       ConvState.VIEW_CHOOSE_ACCOUNT ∧
     (stepText envC8 ConvState.ADD_CHOOSE_EXISTING_PERSON dbC8 {} "zzz").state =
       ConvState.ADD_CHOOSE_EXISTING_PERSON ∧
     (stepText envC8 ConvState.DELETE_CHOOSE_PERSON dbC8 {} "zzz").state =
       ConvState.DELETE_CHOOSE_PERSON ∧
     (stepText envC8 ConvState.DELETE_CHOOSE_ACCOUNT_FOR_PERSON dbC8 {} "zzz").state =
       ConvState.DELETE_CHOOSE_ACCOUNT_FOR_PERSON ∧
     (stepText envC8 ConvState.DELETE_CHOOSE_ACCOUNT dbC8 {} "zzz").state =
       ConvState.DELETE_CHOOSE_ACCOUNT ∧
     (stepText envC8 ConvState.CHANGE_CHOOSE_PERSON dbC8 {} "zzz").state =
       ConvState.CHANGE_CHOOSE_PERSON ∧
     (stepText envC8 ConvState.CHANGE_CHOOSE_ACCOUNT dbC8 {} "zzz").state =
       ConvState.CHANGE_CHOOSE_ACCOUNT ∧
     (stepText envC8 ConvState.CHANGE_CHOOSE_FIELD dbC8 {} "zzz").state =
       ConvState.CHANGE_CHOOSE_FIELD ∧
     (stepText envC8 ConvState.MAIN_MENU dbC8 {} "zzz").state =
       ConvState.MAIN_MENU ∧
     (stepText envC8 ConvState.ADMIN_MENU dbC8 {} "zzz").state =
       ConvState.MAIN_MENU ∧
     (stepText envC8 ConvState.EDIT_MENU dbC8 {} "zzz").state =
       ConvState.MAIN_MENU ∧
     (stepText envC8 ConvState.ADD_CHOOSE_PERSON_TYPE dbC8 {} "zzz").state =
       ConvState.MAIN_MENU ∧
     (stepText envC8 ConvState.DELETE_CHOOSE_TYPE dbC8 {} "zzz").state =
       ConvState.MAIN_MENU ∧
     (stepText envC8 ConvState.DELETE_CONFIRM_PERSON dbC8 {} "zzz").state =
       ConvState.MAIN_MENU ∧
     (stepText envC8 ConvState.DELETE_CONFIRM_ACCOUNT dbC8 {} "zzz").state =
       ConvState.MAIN_MENU ∧
     (stepText envC8 ConvState.CHANGE_CHOOSE_TARGET dbC8 {} "zzz").state =
       ConvState.MAIN_MENU) :=
  ⟨⟨by decide, by decide, by decide, by decide, by decide, by decide, by decide⟩,
   C8_unmatched_input envC8 dbC8 {} "zzz" (by decide) (by decide) (by decide)
     (by decide) (by decide) (by decide) (by decide)⟩

end MainPy
